import Mathlib

/-!
Verification development for the Dromeport backend (src/backend/...).

The Python sources are shallowly embedded below:
* pure string manipulation (SSE chunk formatting, line classification) is
  translated to executable Lean functions over `String` / `List Char`;
* the asynchronous generators `_spotiflac_stream` (providers/spotify.py) and
  `download_ytmusic_stream` (providers/ytmusic.py) are embedded as pure
  functions from an explicit input trace (the lines produced by the external
  engine, plus the points where timeouts / cancellation / exceptions are
  observed) to the list of SSE chunks the generator yields;
* the job registry (a Python `dict`) is embedded as an association list with
  Python-dict insert/lookup semantics;
* the sync manager (sync.py) is embedded as explicit state passing over a
  `SyncState` (playlist map + set of scheduler trigger ids).

Machine integers do not occur; all counters are `Nat`, process return codes
are `Int`.  Python string formatting `f"data: {x}\n\n"` is translated to
string concatenation.  `json.dumps` of the small fixed-shape payloads is
reproduced textually (key order is Python dict insertion order); `\uXXXX`
escaping of non-ASCII characters inside JSON string values is elided, as no
claim depends on payload text.
-/

/-- Python `str.strip` whitespace set (ASCII part, which is what occurs in
the provider output handled here). -/
def isPyWs (c : Char) : Bool :=
  c = ' ' || c = '\t' || c = '\n' || c = '\r' || c = '\x0b' || c = '\x0c'

/-- Python `str.strip()` on a char list. -/
def pyStripList (l : List Char) : List Char :=
  ((l.dropWhile isPyWs).reverse.dropWhile isPyWs).reverse

/-- Python `str.strip()`. -/
def pyStrip (s : String) : String := ⟨pyStripList s.data⟩

/-- Python `str.rstrip(cs)`: drop the given characters from the right end. -/
def pyRstrip (cs : List Char) (s : String) : String :=
  ⟨((s.data.reverse.dropWhile (fun c => cs.contains c))).reverse⟩

/-- Python slicing `s[n:]` (by code points, as in the source). -/
def pyDrop (n : Nat) (s : String) : String := ⟨s.data.drop n⟩

/-- Prefix test on char lists (used to embed Python `str.startswith`). -/
def listIsPrefix : List Char → List Char → Bool
  | [], _ => true
  | _ :: _, [] => false
  | a :: as, b :: bs => a == b && listIsPrefix as bs

/-- Python `a.startswith(b)`. -/
def pyStartsWith (s pat : String) : Bool := listIsPrefix pat.data s.data

/-- Infix test on char lists (used to embed Python `pat in s`). -/
def listHasInfix (pat : List Char) : List Char → Bool
  | [] => listIsPrefix pat []
  | c :: rest => listIsPrefix pat (c :: rest) || listHasInfix pat rest

/-- Python `pat in s` (substring containment). -/
def pyContains (s pat : String) : Bool := listHasInfix pat.data s.data

/-- Python `str.lower()` (ASCII case folding, matching the provider output
vocabulary the source lowercases). -/
def pyLower (s : String) : String := ⟨s.data.map Char.toLower⟩

/-- Python `"sep".join(parts)` for a single-space separator. -/
def joinSpace : List String → String
  | [] => ""
  | [s] => s
  | s :: rest => s ++ " " ++ joinSpace rest

/-- Embedding of `os.path.join(a, b)` for the POSIX paths used by the app. -/
def pathJoin (a b : String) : String :=
  if a = "" then b
  else if a.data.getLast? = some '/' then a ++ b
  else a ++ "/" ++ b

/-- Render a Nat as in Python `str(n)` / f-string interpolation. -/
def natStr (n : Nat) : String := toString n

/-- Render an Int as in Python f-string interpolation. -/
def intStr (i : Int) : String := toString i

/-- Minimal JSON string rendering for `json.dumps` of a string value
(quote/backslash escaping; `\uXXXX` escaping of non-ASCII elided). -/
def jsonStr (s : String) : String :=
  "\"" ++ ⟨s.data.foldr (fun c acc =>
      if c = '"' then '\\' :: '"' :: acc
      else if c = '\\' then '\\' :: '\\' :: acc
      else c :: acc) []⟩ ++ "\""

/-- Python `json.dumps(b)` for a boolean. -/
def jsonBool (b : Bool) : String := if b then "true" else "false"

-- ── SSE chunk constructors ────────────────────────────────────────────────

/-- Embedding of `f"data: {line}\n\n"`. -/
def dataChunk (line : String) : String := "data: " ++ line ++ "\n\n"

/-- The end-of-stream marker `"data: [DONE]\n\n"`. -/
def doneChunk : String := "data: [DONE]\n\n"

/-- Embedding of `f"event: {kind}\ndata: {payload}\n\n"`; `_meta` in both
providers produces `evChunk "meta" (json.dumps payload)` and the terminal
status event of `_spotiflac_stream` produces `evChunk "status" ...`. -/
def evChunk (kind payload : String) : String :=
  "event: " ++ kind ++ "\ndata: " ++ payload ++ "\n\n"

/-- `json.dumps({"type": "title", "value": v})`. -/
def metaTitle (v : String) : String :=
  evChunk "meta" ("\x7b\"type\": \"title\", \"value\": " ++ jsonStr v ++ "\x7d")

/-- `json.dumps({"type": "progress", "current": c, "total": t})`; the
current index is an `Int` because the sources compute `current - 1` on a
Python int that may be zero. -/
def metaProgress (c : Int) (t : Nat) : String :=
  evChunk "meta"
    ("\x7b\"type\": \"progress\", \"current\": " ++ intStr c ++
     ", \"total\": " ++ natStr t ++ "\x7d")

/-- `json.dumps({"type": "thumb", "url": u})`. -/
def metaThumb (u : String) : String :=
  evChunk "meta" ("\x7b\"type\": \"thumb\", \"url\": " ++ jsonStr u ++ "\x7d")

/-- `json.dumps({"type": "job_id", "value": id})`, the initial out-of-band
event of `stream_with_lifecycle` (main.py). -/
def metaJobId (id : String) : String :=
  evChunk "meta" ("\x7b\"type\": \"job_id\", \"value\": " ++ jsonStr id ++ "\x7d")

/-- The structured terminal status event of `_spotiflac_stream`
(spotify.py lines 298-301). -/
def statusChunk (success : Bool) (downloaded errors skipped : Nat) : String :=
  evChunk "status"
    ("\x7b\"success\": " ++ jsonBool success ++
     ", \"downloaded\": " ++ natStr downloaded ++
     ", \"errors\": " ++ natStr errors ++
     ", \"skipped\": " ++ natStr skipped ++ "\x7d")

/-- The bare `{'success': False}` status emitted on the directory-creation
failure path of `_spotiflac_stream` (spotify.py line 115). -/
def statusFailChunk : String := evChunk "status" "\x7b\"success\": false\x7d"

-- ── Spotify provider embedding (providers/spotify.py) ─────────────────────

/-- Python `str.upper()` (ASCII). -/
def pyUpper (s : String) : String := ⟨s.data.map Char.toUpper⟩

/-- The `.name` of a `pathlib.Path` (last path component) as used by
`_flatten_spotiflac_subfolders`. -/
def lastComponent (s : String) : String :=
  ⟨(s.data.reverse.takeWhile (fun c => c != '/')).reverse⟩

/-- Embedding of `_is_playlist_url` (spotify.py lines 20-22). -/
def spotIsPlaylistUrl (url : String) : Bool :=
  pyContains (pyLower url) "/playlist/" || pyContains (pyLower url) "/album/"

/-- Configuration values of `_spotiflac_stream` after extraction from the
JSON config dict (spotify.py lines 93-106): the structure holds the already
extracted fields; `.strip()` of `libraryPath` / `_playlist_folder` and the
dict-lookup defaults are considered applied by the caller, except
`output_format`'s `.lower()` which the stream applies where the source does. -/
structure SpotCfg where
  url : String
  libraryPath : String
  playlistMode : String
  playlistFolder : String
  service : String
  outputFormatRaw : String
deriving Repr, DecidableEq

/-- Output directory selection (spotify.py lines 108-119). -/
def spotOutputDirOf (c : SpotCfg) : String :=
  if spotIsPlaylistUrl c.url && c.playlistMode == "folder" && c.playlistFolder != "" then
    pathJoin c.libraryPath c.playlistFolder
  else c.libraryPath

/-- One observation of the consumer loop of `_spotiflac_stream`
(spotify.py lines 183-244).  `cancelObserved` is the loop-top
`cancel_event.is_set()` returning true; `line` / `sentinel` are the two
results of `output_q.get`; `stall` is `asyncio.TimeoutError` from the 300 s
`wait_for`; `readErr` is an unexpected exception while reading. -/
inductive SpotEvent where
  | cancelObserved
  | line (s : String)
  | sentinel
  | stall
  | readErr (msg : String)
deriving Repr, DecidableEq

/-- The loop-local counters and flags of `_spotiflac_stream`
(spotify.py lines 175-180). -/
structure SStats where
  downloaded : Nat := 0
  errors : Nat := 0
  skipped : Nat := 0
  totalCount : Nat := 0
  fatal : Bool := false
  cancelled : Bool := false
deriving Repr, DecidableEq

/-- Greedy `\d+`: maximal digit run and the remainder. -/
def takeDigits : List Char → (List Char × List Char)
  | [] => ([], [])
  | c :: rest =>
    if c.isDigit then
      let (d, r) := takeDigits rest
      (c :: d, r)
    else ([], c :: rest)

/-- Digit run to `int(...)`. -/
def digitsToNat (l : List Char) : Nat :=
  l.foldl (fun n c => 10 * n + (c.toNat - 48)) 0

/-- Consume an exact literal. -/
def dropLit : List Char → List Char → Option (List Char)
  | [], l => some l
  | _ :: _, [] => none
  | p :: ps, c :: cs => if p == c then dropLit ps cs else none

/-- Consume `\s+` (greedy; the following literal starts with non-space, so
greediness has no backtracking effect). -/
def dropWs1 : List Char → Option (List Char)
  | [] => none
  | c :: rest => if isPyWs c then some (rest.dropWhile isPyWs) else none

/-- Embedding of `re.match(r"^\[(\d+)/(\d+)\]\s+Starting download:\s*(.+)", line)`
(spotify.py line 215), returning the two captured numbers. -/
def spotProgressHeader (s : String) : Option (Nat × Nat) :=
  match s.data with
  | '[' :: rest =>
    match takeDigits rest with
    | ([], _) => none
    | (d1, r1) =>
      match r1 with
      | '/' :: r2 =>
        match takeDigits r2 with
        | ([], _) => none
        | (d2, r3) =>
          match r3 with
          | ']' :: r4 =>
            match dropWs1 r4 with
            | none => none
            | some r5 =>
              match dropLit "Starting download:".data r5 with
              | none => none
              | some r6 =>
                -- `\s*(.+)` succeeds exactly when at least one char remains
                if r6.isEmpty then none else some (digitsToNat d1, digitsToNat d2)
          | _ => none
      | _ => none
  | _ => none

/-- Anchored part of the `\[X\]\s+Failed all services` pattern, applied to
an already lowercased suffix. -/
def failedAllAt : List Char → Bool
  | '[' :: 'x' :: ']' :: rest =>
    match rest with
    | [] => false
    | c :: rest2 =>
      isPyWs c &&
        (match dropLit "failed all services".data (rest2.dropWhile isPyWs) with
         | some _ => true
         | none => false)
  | _ => false

/-- `re.search`: try an anchored matcher at every position. -/
def searchPos (p : List Char → Bool) : List Char → Bool
  | [] => p []
  | c :: rest => p (c :: rest) || searchPos p rest

/-- Embedding of `re.search(r"\[X\]\s+Failed all services", line, re.IGNORECASE)`
(spotify.py line 224). -/
def spotFailedAll (s : String) : Bool := searchPos failedAllAt (pyLower s).data

/-- Embedding of `re.match(r"^=+$", line.strip())` (spotify.py line 240). -/
def spotSeparator (s : String) : Bool :=
  let t := pyStripList s.data
  !t.isEmpty && t.all (fun c => c == '=')

/-- The body of the consumer loop of `_spotiflac_stream` for one dequeued
line (spotify.py lines 201-244): the chunks yielded for the line and the
updated counters. -/
def spotLineStep (l : String) (st : SStats) : List String × SStats :=
  if pyStartsWith l "__EXCEPTION__:" then
    ([dataChunk ("SpotiFLAC error: " ++ pyStrip (pyDrop 14 l))], { st with fatal := true })
  else if l == "__CANCELLED__" then
    ([], { st with cancelled := true })
  else if pyStartsWith l "[DEBUG]" then
    ([], st)
  else
    match spotProgressHeader l with
    | some (cur, tot) =>
      ([metaProgress ((cur : Int) - 1) tot, dataChunk l], { st with totalCount := tot })
    | none =>
      if pyContains l "Successfully downloaded using:" then
        ([metaProgress ((st.downloaded : Int) + 1) st.totalCount, dataChunk l],
         { st with downloaded := st.downloaded + 1 })
      else if spotFailedAll l then
        ([dataChunk l,
          dataChunk "Tip: This track couldn't be found on any service. Try it via YouTube Music instead."],
         { st with errors := st.errors + 1 })
      else if pyContains l "File already exists:" && pyContains l "Skipping" then
        ([dataChunk l], { st with skipped := st.skipped + 1 })
      else if pyContains l "Fetching metadata" then
        ([dataChunk "Fetching Spotify metadata..."], st)
      else if pyStartsWith l "Error:" || pyStartsWith l "Warning: Invalid output directory" then
        ([dataChunk l], { st with fatal := true })
      else if spotSeparator l then
        ([dataChunk ""], st)
      else
        ([dataChunk l], st)

/-- The consumer loop of `_spotiflac_stream` (spotify.py lines 182-248)
over the trace of observations.  When the trace is exhausted without a
sentinel / cancellation / error, the producer has stopped feeding the queue
and the 300 s `wait_for` necessarily times out, which is the same stall
branch as an explicit `stall` event. -/
def spotLoop : List SpotEvent → SStats → (List String × SStats)
  | [], st =>
    ([dataChunk "No output from SpotiFLAC for 5 minutes — it may be hung."],
     { st with fatal := true })
  | ev :: rest, st =>
    match ev with
    | .cancelObserved => ([], { st with cancelled := true })
    | .sentinel => ([], st)
    | .stall =>
      ([dataChunk "No output from SpotiFLAC for 5 minutes — it may be hung."],
       { st with fatal := true })
    | .readErr msg =>
      ([dataChunk ("Unexpected error reading SpotiFLAC output: " ++ msg)],
       { st with fatal := true })
    | .line l =>
      let (chunks, st') := spotLineStep l st
      let (more, st'') := spotLoop rest st'
      (chunks ++ more, st'')

/-- The 300-second no-output timeout of `_spotiflac_stream`
(`timeout=300.0` at spotify.py line 191). -/
def spotStallTimeoutSeconds : Nat := 300

/-- The bounded wait on the abandoned worker thread
(`timeout=30.0` at spotify.py line 258). -/
def spotThreadJoinTimeoutSeconds : Nat := 30

/-- Embedding of `complete_failure` (spotify.py line 267). -/
def completeFailure (errors downloaded totalCount : Nat) : Bool :=
  decide (errors > 0) && decide (downloaded = 0) && decide (totalCount > 0)

/-- Embedding of `success` (spotify.py line 268). -/
def successFlag (hadFatalError wasCancelled : Bool) (errors downloaded totalCount : Nat) : Bool :=
  !hadFatalError && !wasCancelled && !completeFailure errors downloaded totalCount

-- ── post-download helpers of the Spotify stream ──

/-- Chunks of `_flatten_spotiflac_subfolders` (spotify.py lines 307-329):
one message per subfolder that contains at least one file. -/
def flattenChunks (outputDirName : String) (subs : List String) : List String :=
  subs.map (fun n =>
    dataChunk ("Flattening SpotiFLAC subfolder '" ++ n ++ "' into '" ++ outputDirName ++ "'..."))

/-- Outcome of one FLAC file in `_transcode_flac` (spotify.py lines 345-410). -/
inductive TFile where
  | ok (name out : String) (coverErr : Option String)
  | ffmpegErr (name out : String) (code : Int)
  | exc (name out : String) (msg : String)
deriving Repr, DecidableEq

def tfileName : TFile → String
  | .ok n _ _ => n
  | .ffmpegErr n _ _ => n
  | .exc n _ _ => n

def tfileOut : TFile → String
  | .ok _ o _ => o
  | .ffmpegErr _ o _ => o
  | .exc _ o _ => o

/-- Filesystem / subprocess observations driving `_transcode_flac`:
the per-file outcomes and the point (if any) where `ffmpeg` turns out to be
missing (`FileNotFoundError`, which aborts the whole helper). -/
structure TransInput where
  files : List TFile
  ffmpegMissingAt : Option Nat := none
deriving Repr, DecidableEq

/-- The chunks one file contributes inside `_transcode_flac`'s loop
(its `-> dest` header plus the outcome message), and whether it counts as
transcoded. -/
def transFileChunks : TFile → (List String × Bool)
  | .ok n o cov =>
    (dataChunk ("  " ++ n ++ " -> " ++ o) ::
       (match cov with
        | some e => [dataChunk ("  Cover art embedding failed (file is still OK): " ++ e)]
        | none => []), true)
  | .ffmpegErr n o c =>
    ([dataChunk ("  " ++ n ++ " -> " ++ o),
      dataChunk ("  FFmpeg error for '" ++ n ++ "' (code " ++ intStr c ++ "). Original kept.")],
     false)
  | .exc n o m =>
    ([dataChunk ("  " ++ n ++ " -> " ++ o), dataChunk ("  Transcoding error: " ++ m)], false)

/-- Per-file loop of `_transcode_flac`: chunks, transcoded count, error
count, and whether the loop aborted on a missing ffmpeg. -/
def transLoop (fmtU : String) (i : Nat) (missing : Option Nat) :
    List TFile → (List String × Nat × Nat × Bool)
  | [] => ([], 0, 0, false)
  | f :: rest =>
    if missing = some i then
      ([dataChunk ("  " ++ tfileName f ++ " -> " ++ tfileOut f),
        dataChunk "FFmpeg not found. Install FFmpeg and ensure it's in PATH."],
       0, 0, true)
    else
      let r := transFileChunks f
      let rr := transLoop fmtU (i + 1) missing rest
      (r.1 ++ rr.1, (if r.2 then 1 else 0) + rr.2.1, (if r.2 then 0 else 1) + rr.2.2.1,
       rr.2.2.2)

/-- Embedding of `_transcode_flac` (spotify.py lines 332-414). -/
def transcodeChunks (outputDir fmtLower : String) (inp : TransInput) : List String :=
  dataChunk ("Transcoding FLAC to " ++ pyUpper fmtLower ++ " using FFmpeg. This may take a while...") ::
  (if inp.files.isEmpty then
    [dataChunk ("No FLAC files found in '" ++ outputDir ++ "' to transcode.")]
  else
    dataChunk ("  Found " ++ natStr inp.files.length ++ " FLAC file(s) to transcode.") ::
    (let r := transLoop (pyUpper fmtLower) 0 inp.ffmpegMissingAt inp.files
     r.1 ++
       (if r.2.2.2 then []
        else
          [dataChunk ("Transcoding complete! " ++ natStr r.2.1 ++ " file(s) converted to " ++
            pyUpper fmtLower ++ ".")] ++
          (if r.2.2.1 > 0 then
             [dataChunk ("  " ++ natStr r.2.2.1 ++ " file(s) failed to transcode.")]
           else []))))

/-- Banner chunks of `_spotiflac_stream` (spotify.py lines 124-136). -/
def spotBanner (c : SpotCfg) : List String :=
  dataChunk ("Starting Spotify download via SpotiFLAC (service: " ++ c.service ++ ")...") ::
  ((if spotIsPlaylistUrl c.url then
      [dataChunk ("  Output folder : " ++
        (if c.playlistFolder != "" then "'" ++ c.playlistFolder ++ "'"
         else "library root (SpotiFLAC will create a subfolder per album/playlist)"))]
    else []) ++
   [dataChunk ""] ++
   (if spotIsPlaylistUrl c.url && c.playlistFolder != "" then [metaTitle c.playlistFolder]
    else [metaTitle "Spotify download"]))

/-- The report chunks of `_spotiflac_stream` between the consumer loop and
the terminal status event (spotify.py lines 262-295): the blank separator
and the cancelled / success / complete-failure / error report. -/
def spotTailPre (c : SpotCfg) (flattenSubs : List String) (trans : TransInput)
    (st : SStats) : List String :=
  let outDir := spotOutputDirOf c
  let success := successFlag st.fatal st.cancelled st.errors st.downloaded st.totalCount
  let cf := completeFailure st.errors st.downloaded st.totalCount
  dataChunk "" ::
  (if st.cancelled then [dataChunk "Download cancelled."]
   else if success then
     (if spotIsPlaylistUrl c.url && c.playlistMode == "folder" && c.playlistFolder != "" then
        flattenChunks (lastComponent outDir) flattenSubs
      else []) ++
     [dataChunk ("✅ SpotiFLAC download complete! Files saved to '" ++ outDir ++ "'.")] ++
     (if st.downloaded > 0 then
        [dataChunk ("  Tracks downloaded : " ++ natStr st.downloaded)] else []) ++
     (if st.skipped > 0 then
        [dataChunk ("  Already existed   : " ++ natStr st.skipped ++ " (skipped)")] else []) ++
     (if st.errors > 0 then
        [dataChunk ("  ⚠️  Failed          : " ++ natStr st.errors)] else []) ++
     (if pyLower c.outputFormatRaw != "flac" then
        dataChunk "" :: transcodeChunks outDir (pyLower c.outputFormatRaw) trans
      else [])
   else if cf then
     [dataChunk ("❌ No tracks could be downloaded (" ++ natStr st.errors ++
       " failed). Try a different service or use YouTube Music instead.")]
   else [dataChunk "SpotiFLAC encountered errors. Check the log above."])

/-- Shutdown chunks of `_spotiflac_stream` after the consumer loop
(spotify.py lines 262-302): the report, then the structured status event,
then the end-of-stream marker. -/
def spotTail (c : SpotCfg) (flattenSubs : List String) (trans : TransInput)
    (st : SStats) : List String :=
  spotTailPre c flattenSubs trans st ++
  [statusChunk (successFlag st.fatal st.cancelled st.errors st.downloaded st.totalCount)
     st.downloaded st.errors st.skipped, doneChunk]

/-- Complete input trace of one `_spotiflac_stream` run. -/
structure SpotInput where
  cfg : SpotCfg
  mkdirFail : Option String := none
  events : List SpotEvent := []
  flattenSubs : List String := []
  trans : TransInput := ⟨[], none⟩
deriving Repr, DecidableEq

/-- Final loop counters of a run. -/
def spotFinalStats (inp : SpotInput) : SStats := (spotLoop inp.events {}).2

/-- Embedding of `_spotiflac_stream` (spotify.py lines 87-302): the full
sequence of SSE chunks yielded for one job. -/
def spotiflacStream (inp : SpotInput) : List String :=
  let c := inp.cfg
  match inp.mkdirFail with
  | some err =>
    [dataChunk ("Could not create directory '" ++ spotOutputDirOf c ++ "': " ++ err),
     statusFailChunk, doneChunk]
  | none =>
    spotBanner c ++ (spotLoop inp.events {}).1 ++
      spotTail c inp.flattenSubs inp.trans (spotLoop inp.events {}).2

-- ── main.py download endpoint wrappers ────────────────────────────────────

/-- Embedding of `error_stream` (main.py lines 204-206). -/
def errorStream (message : String) : List String :=
  [dataChunk ("❌ " ++ message), doneChunk]

/-- Embedding of `stream_with_lifecycle` (main.py lines 245-254): the
initial job-id event, then the provider generator's chunks; if the
generator raises before producing its (k+1)-th chunk, the wrapper emits the
interruption notice and its own end-of-stream marker. -/
def streamWithLifecycle (jobId : String) (chunks : List String)
    (raiseAt : Option Nat) : List String :=
  metaJobId jobId ::
  (match raiseAt with
   | none => chunks
   | some k =>
     if k < chunks.length then
       chunks.take k ++ [dataChunk "❌ Stream interrupted.", doneChunk]
     else chunks)

-- ── YouTube Music provider embedding (providers/ytmusic.py) ───────────────

/-- Python `str.split(sep)` worker for a non-empty separator
`s0 :: srest`; `acc` is the reversed current field. -/
def pySplitAux (s0 : Char) (srest : List Char) : List Char → List Char → List (List Char)
  | [], acc => [acc.reverse]
  | c :: rest, acc =>
    if listIsPrefix (s0 :: srest) (c :: rest) then
      acc.reverse :: pySplitAux s0 srest (List.drop srest.length rest) []
    else
      pySplitAux s0 srest rest (c :: acc)
termination_by l _ => l.length
decreasing_by
  all_goals simp [List.length_drop]
  omega

/-- Python `s.split(sep)` for a non-empty separator. -/
def pySplit (s sep : String) : List String :=
  match sep.data with
  | [] => [s]
  | c :: rest => (pySplitAux c rest s.data []).map (fun l => ⟨l⟩)

/-- Embedding of ytmusic.py `_is_playlist_url` (lines 8-14):
`("list=" in u and "watch?v=" not in u.split("list=")[0].split("?")[-1])
or "/playlist" in u or "/album/" in u` on the lowercased url. -/
def ytIsPlaylistUrl (url : String) : Bool :=
  let u := pyLower url
  (pyContains u "list=" &&
    !(pyContains ((pySplit ((pySplit u "list=").headD "") "?").getLastD "") "watch?v=")) ||
  pyContains u "/playlist" || pyContains u "/album/"

/-- Find the first occurrence of a literal pattern and return the suffix
after it (the scanning part of `re.search` with a literal head). -/
def findAfter (pat : List Char) : List Char → Option (List Char)
  | [] => dropLit pat []
  | c :: rest =>
    match dropLit pat (c :: rest) with
    | some r => some r
    | none => findAfter pat rest

/-- A greedy `.+` before the rest of a pattern: try the anchored matcher on
every proper suffix, preferring the latest position (regex backtracking
semantics: the longest `.+` wins). -/
def lastSuffixMatch {α : Type} (f : List Char → Option α) : List Char → Option α
  | [] => none
  | _ :: rest =>
    match lastSuffixMatch f rest with
    | some x => some x
    | none => f rest

/-- Embedding of `re.search(r"\[download\] Downloading playlist: (.+)", line)`
followed by `.strip()` of the capture (ytmusic.py line 113). -/
def ytPlaylistTitleOf (s : String) : Option String :=
  match findAfter "[download] Downloading playlist: ".data s.data with
  | none => none
  | some r => if r.isEmpty then none else some (pyStrip ⟨r⟩)

/-- The anchored tail `: Downloading (\d+) items` of the playlist-size
pattern. -/
def colonDownloadingItems (l : List Char) : Option Nat :=
  match dropLit ": Downloading ".data l with
  | none => none
  | some r =>
    match takeDigits r with
    | ([], _) => none
    | (ds, r2) =>
      match dropLit " items".data r2 with
      | some _ => some (digitsToNat ds)
      | none => none

/-- Embedding of `re.search(r"Playlist .+: Downloading (\d+) items", line)`
(ytmusic.py line 117). -/
def ytItemsCount (s : String) : Option Nat :=
  match findAfter "Playlist ".data s.data with
  | none => none
  | some tail => lastSuffixMatch colonDownloadingItems tail

/-- Embedding of
`re.match(r"^\[download\] Downloading item (\d+) of (\d+)", line)`
(ytmusic.py line 122). -/
def ytItemOf (s : String) : Option (Nat × Nat) :=
  match dropLit "[download] Downloading item ".data s.data with
  | none => none
  | some r =>
    match takeDigits r with
    | ([], _) => none
    | (d1, r1) =>
      match dropLit " of ".data r1 with
      | none => none
      | some r2 =>
        match takeDigits r2 with
        | ([], _) => none
        | (d2, _) => some (digitsToNat d1, digitsToNat d2)

/-- Character class `[A-Za-z0-9_-]`. -/
def isYtIdChar (c : Char) : Bool :=
  ('A' ≤ c && c ≤ 'Z') || ('a' ≤ c && c ≤ 'z') || ('0' ≤ c && c ≤ '9') || c = '_' || c = '-'

/-- The anchored tail `watch\?v=([A-Za-z0-9_-]{11})` of the thumbnail
pattern. -/
def watchIdAt (l : List Char) : Option (List Char) :=
  match dropLit "watch?v=".data l with
  | none => none
  | some r =>
    let ds := r.take 11
    if ds.length = 11 && ds.all isYtIdChar then some ds else none

/-- Embedding of
`re.search(r"\[youtube\] Extracting URL: .+watch\?v=([A-Za-z0-9_-]{11})", line)`
(ytmusic.py line 129). -/
def ytThumbId (s : String) : Option String :=
  match findAfter "[youtube] Extracting URL: ".data s.data with
  | none => none
  | some tail => (lastSuffixMatch watchIdAt tail).map (fun l => ⟨l⟩)

/-- `os.path.basename` for the POSIX paths in play. -/
def osBasename (s : String) : String := lastComponent s

/-- The root part of `os.path.splitext` (extension split at the last dot,
with no split when everything before it is dots). -/
def osSplitextRoot (s : String) : String :=
  let b := s.data
  if b.contains '.' then
    let root := ((b.reverse.dropWhile (fun c => c != '.')).drop 1).reverse
    if root.isEmpty || root.all (fun c => c == '.') then s else ⟨root⟩
  else s

/-- Embedding of `re.search(r"Destination:\s+(.+)$", line)` followed by
`os.path.splitext(os.path.basename(group.strip()))[0]` (ytmusic.py
lines 138-139). -/
def ytDestTitle (s : String) : Option String :=
  match findAfter "Destination:".data s.data with
  | none => none
  | some r =>
    match r with
    | [] => none
    | c :: rest =>
      if isPyWs c then
        let r2 := rest.dropWhile isPyWs
        if r2.isEmpty then
          -- `.+` backtracks into the whitespace run; `.strip()` then
          -- empties the capture
          if rest.isEmpty then none else some ""
        else some (osSplitextRoot (osBasename (pyStrip ⟨r2⟩)))
      else none

/-- Configuration of `download_ytmusic_stream` after extraction from the
config dict (ytmusic.py lines 27-33). -/
structure YtCfg where
  url : String
  libraryPath : String
  audioFormat : String
  embedMetadata : Bool
  playlistMode : String
  playlistFolder : String
deriving Repr, DecidableEq

/-- How one `download_ytmusic_stream` run ends: directory creation failure,
`FileNotFoundError` at spawn, an unexpected exception after consuming `k`
lines, or normal completion with the process return code. -/
inductive YtRun where
  | mkdirFail (msg : String)
  | spawnNotFound
  | excAfter (k : Nat) (msg : String)
  | complete (rc : Int)
deriving Repr, DecidableEq

/-- Input trace of one `download_ytmusic_stream` run: the decoded stdout
lines and the way the run ends. -/
structure YtInput where
  cfg : YtCfg
  run : YtRun
  lines : List String := []
deriving Repr, DecidableEq

/-- Loop-local counters of `download_ytmusic_stream`
(ytmusic.py lines 87-92). -/
structure YStats where
  downloaded : Nat := 0
  errors : Nat := 0
  skipped : Nat := 0
  totalCount : Nat := 0
  finalTitle : Option String := none
  thumbEmitted : Bool := false
deriving Repr, DecidableEq

/-- Output base directory (ytmusic.py lines 36-43). -/
def ytOutputBase (c : YtCfg) : String :=
  if ytIsPlaylistUrl c.url && c.playlistMode == "folder" then
    if c.playlistFolder != "" then pathJoin c.libraryPath c.playlistFolder
    else pathJoin c.libraryPath "%(playlist_title)s"
  else c.libraryPath

/-- `output_template` (ytmusic.py line 54). -/
def ytOutputTemplate (c : YtCfg) : String :=
  pathJoin (ytOutputBase c) "%(title)s.%(ext)s"

/-- The yt-dlp command list (ytmusic.py lines 56-75). -/
def ytCommand (c : YtCfg) : List String :=
  ["yt-dlp", "--extract-audio", "--audio-format", c.audioFormat,
   "--output", ytOutputTemplate c, "--ignore-errors", "--newline", "--no-colors"] ++
  (if !ytIsPlaylistUrl c.url then ["--no-playlist"] else []) ++
  (if c.audioFormat == "mp3" then ["--audio-quality", "0"] else []) ++
  (if c.embedMetadata then ["--embed-metadata", "--embed-thumbnail"] else []) ++
  [c.url]

/-- Banner chunks (ytmusic.py lines 77-85). -/
def ytBanner (c : YtCfg) : List String :=
  let playlist := ytIsPlaylistUrl c.url
  dataChunk ("▶ Starting " ++ (if playlist then "playlist " else "") ++ "download...") ::
  ((if playlist then
      [dataChunk ("  Mode: " ++
        (if c.playlistMode == "folder" then
           (if c.playlistFolder != "" then "subfolder: '" ++ c.playlistFolder ++ "'"
            else "subfolder: <playlist title>")
         else "flat (library root)"))]
    else []) ++
   [dataChunk ("$ " ++ joinSpace (ytCommand c)), dataChunk ""])

/-- The per-line body of the output loop of `download_ytmusic_stream`
(ytmusic.py lines 111-150), for an already rstripped non-empty line. -/
def ytLineStep (playlist : Bool) (l : String) (st : YStats) : List String × YStats :=
  if (ytPlaylistTitleOf l).isSome then
    ([metaTitle ((ytPlaylistTitleOf l).getD ""), dataChunk l], st)
  else if (ytItemsCount l).isSome then
    let n := (ytItemsCount l).getD 0
    ([metaProgress 0 n, dataChunk l], { st with totalCount := n })
  else if (ytItemOf l).isSome then
    let p := (ytItemOf l).getD (0, 0)
    ([metaProgress ((p.1 : Int) - 1) p.2, dataChunk l], { st with totalCount := p.2 })
  else if !st.thumbEmitted && (ytThumbId l).isSome then
    ([metaThumb ("https://img.youtube.com/vi/" ++ (ytThumbId l).getD "" ++ "/mqdefault.jpg"),
      dataChunk l],
     { st with thumbEmitted := true })
  else if pyContains l "[ExtractAudio] Destination:" then
    let d := st.downloaded + 1
    if !playlist then
      match ytDestTitle l with
      | some t => ([metaTitle t, dataChunk l], { st with downloaded := d, finalTitle := some t })
      | none => ([dataChunk l], { st with downloaded := d })
    else
      ([metaProgress (d : Int) st.totalCount, dataChunk l], { st with downloaded := d })
  else if pyStartsWith l "ERROR:" then
    ([dataChunk l], { st with errors := st.errors + 1 })
  else if pyContains l "[download] has already been downloaded" then
    ([dataChunk l], { st with skipped := st.skipped + 1 })
  else
    ([dataChunk l], st)

/-- The output loop (ytmusic.py lines 107-150): each raw line is rstripped
of `\r\n` and skipped when empty. -/
def ytLoop (playlist : Bool) : List String → YStats → (List String × YStats)
  | [], st => ([], st)
  | raw :: rest, st =>
    let l := pyRstrip ['\r', '\n'] raw
    if l == "" then ytLoop playlist rest st
    else
      let (cs, st') := ytLineStep playlist l st
      let (more, st'') := ytLoop playlist rest st'
      (cs ++ more, st'')

/-- The completion summary (ytmusic.py lines 167-192). -/
def ytSummary (c : YtCfg) (rc : Int) (st : YStats) : List String :=
  let playlist := ytIsPlaylistUrl c.url
  if rc == 0 || rc == 1 then
    if playlist then
      (["✅ Playlist download finished.",
        "  Tracks downloaded : " ++ natStr st.downloaded] ++
       (if st.skipped > 0 then
          ["  Already existed   : " ++ natStr st.skipped ++ " (skipped)"] else []) ++
       (if st.errors > 0 then
          ["  ⚠️  Failed          : " ++ natStr st.errors ++ " (age-restricted / unavailable)"]
        else []) ++
       ["  Saved to          : " ++
          (if c.playlistFolder != "" then ytOutputBase c else c.libraryPath),
        "  Format            : " ++ pyUpper c.audioFormat]).map dataChunk ++
      [metaProgress (st.downloaded : Int)
        (if st.totalCount != 0 then st.totalCount else st.downloaded)]
    else
      match st.finalTitle with
      | some t =>
        [dataChunk ("✅ Done! '" ++ t ++ "' saved to '" ++ c.libraryPath ++ "' as " ++
          pyUpper c.audioFormat ++ ".")]
      | none =>
        [dataChunk ("✅ Download complete! File saved to '" ++ c.libraryPath ++ "'.")]
  else
    [dataChunk ("❌ yt-dlp exited with code " ++ intStr rc ++ ".")]

/-- Embedding of `download_ytmusic_stream` (ytmusic.py lines 21-194): the
full sequence of SSE chunks yielded for one job. -/
def ytmusicStream (inp : YtInput) : List String :=
  let c := inp.cfg
  let playlist := ytIsPlaylistUrl c.url
  match inp.run with
  | .mkdirFail msg =>
    [dataChunk ("❌ Could not create directory: " ++ msg), doneChunk]
  | .spawnNotFound =>
    ytBanner c ++ [dataChunk "❌ yt-dlp not found. Install: pip install -U yt-dlp", doneChunk]
  | .excAfter k msg =>
    ytBanner c ++ (ytLoop playlist (inp.lines.take k) {}).1 ++
      [dataChunk ("❌ Unexpected error: " ++ msg), doneChunk]
  | .complete rc =>
    ytBanner c ++ (ytLoop playlist inp.lines {}).1 ++ [dataChunk ""] ++
      ytSummary c rc (ytLoop playlist inp.lines {}).2 ++ [doneChunk]

-- ── Job registry (the `_active_jobs` dict in main.py, written by the two
-- providers) ──────────────────────────────────────────────────────────────

/-- A registry entry: the dict `{"process": ..., "provider": ..., "library_path": ...}`
stored at ytmusic.py lines 101-105 / spotify.py lines 143-147; the process
handle is abstracted to an identifying number. -/
structure Job where
  procId : Nat
  provider : String
  libraryPath : String
deriving Repr, DecidableEq

/-- Python dict assignment `d[k] = v`: replaces the value in place when the
key is present (keeping its position), appends otherwise. -/
def dictInsert {α : Type} (k : String) (v : α) : List (String × α) → List (String × α)
  | [] => [(k, v)]
  | (k', v') :: rest => if k' = k then (k, v) :: rest else (k', v') :: dictInsert k v rest

/-- Python dict lookup `d.get(k)`. -/
def dictLookup {α : Type} (k : String) : List (String × α) → Option α
  | [] => none
  | (k', v) :: rest => if k' = k then some v else dictLookup k rest

/-- Python `d.pop(k, None)` / `del d[k]`. -/
def dictRemove {α : Type} (k : String) : List (String × α) → List (String × α)
  | [] => []
  | (k', v) :: rest => if k' = k then rest else (k', v) :: dictRemove k rest

def dictKeys {α : Type} (d : List (String × α)) : List String := d.map Prod.fst

/-- Registration of a job (`registry[job_id] = {...}`, ytmusic.py line 101 /
spotify.py line 143): a plain dict assignment. -/
def registerJob (jobId : String) (job : Job) (reg : List (String × Job)) :
    List (String × Job) :=
  dictInsert jobId job reg

-- ── Cancel endpoint (main.py lines 180-192 and 265-290) ───────────────────

/-- How `terminate()` + `wait_for(process.wait(), timeout=5.0)` plays out. -/
inductive WaitOutcome where
  | exited
  | timedOut
  | procGone
deriving Repr, DecidableEq

/-- The grace period `timeout=5.0` of main.py line 277, in seconds. -/
def cancelGraceSeconds : Nat := 5

/-- One `*.part` / `*.ytdl` file found under the library path, with whether
its `unlink()` raises `OSError`. -/
structure PartFile where
  name : String
  unlinkFails : Bool
deriving Repr, DecidableEq

/-- Embedding of `_cleanup_partial_files` (main.py lines 180-192): counts
the files successfully unlinked; an `unlink` failure is swallowed
per-file, and a glob failure after `k` files aborts the sweep but the count
so far is still returned (outer `except Exception: pass`). -/
def cleanupPartialFiles (files : List PartFile) (globFailsAfter : Option Nat) : Nat :=
  let seen := match globFailsAfter with
    | some k => files.take k
    | none => files
  (seen.filter (fun f => !f.unlinkFails)).length

structure CancelResult where
  status : String
  partialFilesDeleted : Nat
  terminateSent : Bool
  killAttempted : Bool
deriving Repr, DecidableEq

/-- Embedding of `cancel_download` (main.py lines 265-290).  Inputs beyond
the registry and the id: the optional `library_path` query parameter, the
observed process behaviour during the grace period, and the filesystem state
for the partial-file sweep.  Returns Not-Found (`Except.error`) for an
unknown id, otherwise the registry after removal and the response. -/
def cancelDownload (reg : List (String × Job)) (jobId : String)
    (libraryPathArg : String) (wait : WaitOutcome) (isDir : Bool)
    (files : List PartFile) (globFailsAfter : Option Nat) :
    Except String (List (String × Job) × CancelResult) :=
  match dictLookup jobId reg with
  | none => Except.error "Job not found or already finished."
  | some job =>
    let effPath := if libraryPathArg != "" then libraryPathArg else job.libraryPath
    let killAttempted := wait != WaitOutcome.exited
    let reg' := dictRemove jobId reg
    let cleaned :=
      if job.provider == "ytmusic" && effPath != "" && isDir then
        cleanupPartialFiles files globFailsAfter
      else 0
    Except.ok (reg',
      { status := "cancelled", partialFilesDeleted := cleaned,
        terminateSent := true, killAttempted := killAttempted })

-- ── Sync manager embedding (sync.py) ──────────────────────────────────────

/-- The `"spotify"` sub-dict of a stored job configuration; only the keys
the sync code may touch are distinguished. -/
structure SpotifySettings where
  spotiflacPath : Option String := none
  artistSubfolders : Option Bool := none
  albumSubfolders : Option Bool := none
deriving Repr, DecidableEq

/-- A stored job configuration snapshot (the `"config"` value of a
playlist). -/
structure PConfig where
  libraryPath : String := ""
  playlistMode : Option String := none
  playlistFolderKey : Option String := none
  spotify : Option SpotifySettings := none
deriving Repr, DecidableEq

/-- A Sync Definition as stored by `add_playlist` (sync.py lines 61-81). -/
structure Playlist where
  id : String
  url : String
  name : String
  thumb : Option String := none
  provider : String
  config : PConfig
  playlistFolder : String := ""
  scheduleType : String := "interval"
  intervalValue : Nat := 24
  intervalUnit : String := "hours"
  cronTime : String := "08:00"
  cronDays : String := "daily"
  enabled : Bool := true
  lastSyncedAt : Option String := none
  lastSyncStatus : Option String := none
  lastSyncLog : Option String := none
deriving Repr, DecidableEq

/-- Embedding of `SyncManager._load` (sync.py lines 32-37): `_playlists`
starts as `{}`; when the file exists its JSON parse replaces it, and any
read/parse failure (`parsed = none`) leaves the empty map. -/
def syncLoad (fileExists : Bool)
    (parsed : Option (List (String × Playlist))) : List (String × Playlist) :=
  if fileExists then
    match parsed with
    | some m => m
    | none => []
  else []

/-- The in-place mutations `_build_config` applies to a `"spotify"`
sub-dict (sync.py lines 174-175 and 181-182). -/
def mutateSpotify (globalPath : String) (s : SpotifySettings) : SpotifySettings :=
  let s1 :=
    if globalPath != "" && pyStrip (s.spotiflacPath.getD "") == "" then
      { s with spotiflacPath := some globalPath }
    else s
  { s1 with artistSubfolders := some false, albumSubfolders := some false }

/-- Embedding of `_build_config` (sync.py lines 172-183).
`config = dict(playlist["config"])` is a SHALLOW copy: when the stored
config already has a `"spotify"` sub-dict, `config.setdefault("spotify", {})`
returns that very dict, so the subsequent key assignments write through to
the stored snapshot.  The first component is the built config, the second
the stored playlist after the call (aliasing made explicit by state
passing). -/
def buildConfig (globalPath : String) (p : Playlist) : PConfig × Playlist :=
  let base := p.config
  let folderApplied : PConfig :=
    if p.playlistFolder != "" then
      { base with playlistMode := some "folder",
                  playlistFolderKey := some p.playlistFolder }
    else base
  match p.config.spotify with
  | some s =>
    let s' := mutateSpotify globalPath s
    ({ folderApplied with spotify := some s' },
     { p with config := { p.config with spotify := some s' } })
  | none =>
    ({ folderApplied with spotify := some (mutateSpotify globalPath {}) }, p)

/-- Log truncation of `_update_sync_result`
(`log[-5000:] if log else ""`, sync.py line 269). -/
def truncLog (log : String) : String :=
  if log == "" then "" else ⟨(log.data.reverse.take 5000).reverse⟩

/-- Embedding of `_update_sync_result` (sync.py lines 264-270): sets the
three last-run fields of the named definition (no-op when absent) and
leaves every other field unchanged. -/
def updateSyncResult (now pid status log : String)
    (pls : List (String × Playlist)) : List (String × Playlist) :=
  match dictLookup pid pls with
  | none => pls
  | some p =>
    dictInsert pid
      { p with lastSyncedAt := some now, lastSyncStatus := some status,
               lastSyncLog := some (truncLog log) } pls

/-- The error test `_run_sync_job` / `run_sync_stream` apply to each
buffered line (sync.py lines 215 and 254). -/
def syncLineFlagsError (line : String) : Bool :=
  pyContains line "SpotiFLAC exited with code" ||
  pyStartsWith line "❌ Could not launch" ||
  pyStartsWith line "❌ Unexpected"

/-- Line extraction of the sync consumers (sync.py lines 211-214): only
`data: ` chunks count, the prefix is dropped, trailing newlines stripped,
and empty lines and the end-of-stream marker are not buffered. -/
def syncChunkLine (chunk : String) : Option String :=
  if pyStartsWith chunk "data: " then
    let line := pyRstrip ['\n'] (pyDrop 6 chunk)
    if line != "" && line != "[DONE]" then some line else none
  else none

def joinLines : List String → String
  | [] => ""
  | [s] => s
  | s :: rest => s ++ "\n" ++ joinLines rest

/-- Status classification and log buffer of a sync run over the session's
chunks (sync.py lines 202-216): `error` exactly when some buffered line
matches `syncLineFlagsError`, else `success`. -/
def runSyncClassify (chunks : List String) : String × List String :=
  let logs := chunks.filterMap syncChunkLine
  (if logs.any syncLineFlagsError then "error" else "success", logs)

/-- Store effect of one `_run_sync_job` run (sync.py lines 187-221) for a
session that produced `chunks` without raising: the `_build_config`
aliasing mutation, then the `_update_sync_result` write. -/
def runSyncJobEffect (globalPath now pid : String) (chunks : List String)
    (pls : List (String × Playlist)) : List (String × Playlist) :=
  match dictLookup pid pls with
  | none => pls
  | some p =>
    let pMut := (buildConfig globalPath p).2
    let pls1 := dictInsert pid pMut pls
    let r := runSyncClassify chunks
    updateSyncResult now pid r.1 (joinLines r.2) pls1

-- ── Scheduler state machine (sync.py scheduling paths) ────────────────────

/-- Trigger name derivation `f"sync_{pid}"` (sync.py line 117). -/
def schedJobId (pid : String) : String := "sync_" ++ pid

/-- `scheduler.add_job(..., id=job_id, replace_existing=True, ...)`:
at most one trigger per id; re-adding an existing id replaces it. -/
def addJobReplace (jid : String) (trs : List String) : List String :=
  if trs.contains jid then trs else jid :: trs

/-- `_unschedule_playlist` (sync.py lines 160-163): remove the trigger if
present. -/
def removeJobIfPresent (jid : String) (trs : List String) : List String :=
  trs.erase jid

/-- `_schedule_playlist` (sync.py lines 115-158); the interval/cron
parameters do not affect trigger identity. -/
def schedulePlaylist (p : Playlist) (trs : List String) : List String :=
  addJobReplace (schedJobId p.id) trs

def unschedulePlaylist (pid : String) (trs : List String) : List String :=
  removeJobIfPresent (schedJobId pid) trs

/-- `_reschedule_all` (sync.py lines 165-168). -/
def rescheduleAll (pls : List (String × Playlist)) (trs : List String) : List String :=
  pls.foldl (fun t kp => if kp.2.enabled then schedulePlaylist kp.2 t else t) trs

/-- State of the sync manager: the playlist store and the set of scheduler
trigger ids. -/
structure SyncState where
  playlists : List (String × Playlist)
  triggers : List String
deriving Repr, DecidableEq

/-- The request body of `add_playlist` (required and optional fields,
sync.py lines 61-81). -/
structure AddData where
  url : String
  name : String
  thumb : Option String := none
  provider : String
  config : PConfig
  playlistFolder : String := ""
  scheduleType : String := "interval"
  intervalValue : Nat := 24
  intervalUnit : String := "hours"
  cronTime : String := "08:00"
  cronDays : String := "daily"
  enabled : Bool := true
deriving Repr, DecidableEq

/-- The playlist record `add_playlist` builds (sync.py lines 62-81). -/
def mkPlaylist (pid : String) (d : AddData) : Playlist :=
  { id := pid, url := d.url, name := d.name, thumb := d.thumb,
    provider := d.provider, config := d.config,
    playlistFolder := d.playlistFolder, scheduleType := d.scheduleType,
    intervalValue := d.intervalValue, intervalUnit := d.intervalUnit,
    cronTime := d.cronTime, cronDays := d.cronDays, enabled := d.enabled,
    lastSyncedAt := none, lastSyncStatus := none, lastSyncLog := none }

/-- `add_playlist` (sync.py lines 61-86): store the new definition, then
schedule it only when enabled. -/
def addPlaylistOp (pid : String) (d : AddData) (st : SyncState) : SyncState :=
  let p := mkPlaylist pid d
  { playlists := dictInsert pid p st.playlists,
    triggers := if p.enabled then schedulePlaylist p st.triggers else st.triggers }

/-- The updatable keys of `update_playlist` (sync.py lines 92-95). -/
structure UpdData where
  name : Option String := none
  scheduleType : Option String := none
  intervalValue : Option Nat := none
  intervalUnit : Option String := none
  cronTime : Option String := none
  cronDays : Option String := none
  enabled : Option Bool := none
deriving Repr, DecidableEq

def applyUpd (d : UpdData) (p : Playlist) : Playlist :=
  { p with name := d.name.getD p.name,
           scheduleType := d.scheduleType.getD p.scheduleType,
           intervalValue := d.intervalValue.getD p.intervalValue,
           intervalUnit := d.intervalUnit.getD p.intervalUnit,
           cronTime := d.cronTime.getD p.cronTime,
           cronDays := d.cronDays.getD p.cronDays,
           enabled := d.enabled.getD p.enabled }

/-- `update_playlist` (sync.py lines 88-103): no-op on an unknown id; else
apply the updates, unconditionally unschedule, and re-schedule only when
still enabled. -/
def updatePlaylistOp (pid : String) (d : UpdData) (st : SyncState) : SyncState :=
  match dictLookup pid st.playlists with
  | none => st
  | some p =>
    let p' := applyUpd d p
    { playlists := dictInsert pid p' st.playlists,
      triggers :=
        let t1 := unschedulePlaylist pid st.triggers
        if p'.enabled then schedulePlaylist p' t1 else t1 }

/-- `delete_playlist` (sync.py lines 105-111). -/
def deletePlaylistOp (pid : String) (st : SyncState) : SyncState :=
  match dictLookup pid st.playlists with
  | none => st
  | some _ =>
    { playlists := dictRemove pid st.playlists,
      triggers := unschedulePlaylist pid st.triggers }

/-- `_update_sync_result` lifted to the manager state (triggers untouched). -/
def recordResultOp (now pid status log : String) (st : SyncState) : SyncState :=
  { st with playlists := updateSyncResult now pid status log st.playlists }

/-- `_run_sync_job`'s store effect lifted to the manager state (triggers
untouched). -/
def runSyncJobOp (globalPath now pid : String) (chunks : List String)
    (st : SyncState) : SyncState :=
  { st with playlists := runSyncJobEffect globalPath now pid chunks st.playlists }

/-- State right after `SyncManager.__init__` + `start()`: loaded playlist
map, and `_reschedule_all` run against an empty scheduler. -/
def startupState (pls : List (String × Playlist)) : SyncState :=
  { playlists := pls, triggers := rescheduleAll pls [] }

/-- A well-formed store: dict keys are unique and every definition carries
its own key as `id` (as `add_playlist` guarantees for every stored
definition). -/
def WFStore (pls : List (String × Playlist)) : Prop :=
  (dictKeys pls).Nodup ∧ ∀ kp ∈ pls, kp.2.id = kp.1

/-- The reachable states of the sync manager: startup on a well-formed
store, followed by any interleaving of the public operations and runs
(`add_playlist` ids are fresh uuid4 values). -/
inductive SReach : SyncState → Prop
  | start (pls : List (String × Playlist)) (h : WFStore pls) : SReach (startupState pls)
  | add (st : SyncState) (pid : String) (d : AddData) (h : SReach st)
      (hf : dictLookup pid st.playlists = none) : SReach (addPlaylistOp pid d st)
  | update (st : SyncState) (pid : String) (d : UpdData) (h : SReach st) :
      SReach (updatePlaylistOp pid d st)
  | del (st : SyncState) (pid : String) (h : SReach st) : SReach (deletePlaylistOp pid st)
  | record (st : SyncState) (now pid status log : String) (h : SReach st) :
      SReach (recordResultOp now pid status log st)
  | run (st : SyncState) (g now pid : String) (chunks : List String) (h : SReach st) :
      SReach (runSyncJobOp g now pid chunks st)

-- ── Stream-level predicates ───────────────────────────────────────────────

/-- A stream ends with exactly one end-of-stream marker: the marker is its
last element and occurs nowhere else. -/
def EndsOnce (l : List String) : Prop :=
  ∃ pre, l = pre ++ [doneChunk] ∧ doneChunk ∉ pre

/-- Recognizer for the structured terminal status event
(`event: status\n...`). -/
def isStatusChunk (c : String) : Bool := pyStartsWith c "event: status"

/-- The run stalls: the consumer loop of `_spotiflac_stream` reaches the
300 s timeout — either an explicit `stall` observation or the event trace
ending with the producer still silent — before any sentinel, cancellation
or read error. -/
def spotStalls : List SpotEvent → Bool
  | [] => true
  | .cancelObserved :: _ => false
  | .sentinel :: _ => false
  | .stall :: _ => true
  | .readErr _ :: _ => false
  | .line _ :: rest => spotStalls rest

/-- Scheduler/store coupling: trigger ids are unique, and a trigger exists
exactly for the enabled stored definitions. -/
def TrigInv (st : SyncState) : Prop :=
  st.triggers.Nodup ∧
  ∀ j, j ∈ st.triggers ↔
    ∃ pid p, dictLookup pid st.playlists = some p ∧ p.enabled = true ∧ j = schedJobId pid

/-- Well-formedness of a manager state: its store is well formed. -/
def WFState (st : SyncState) : Prop := WFStore st.playlists

-- ── Concrete instances used by witnesses and counterexamples ──────────────

def jobA : Job := ⟨1, "ytmusic", "/lib"⟩

def jobB : Job := ⟨2, "spotiflac", "/lib"⟩

/-- A Spotify run whose external engine prints the literal line `[DONE]`:
the pass-through echo then reproduces the end-of-stream marker verbatim. -/
def c2Input : SpotInput :=
  { cfg := ⟨"x", "/lib", "flat", "", "tidal", "flac"⟩,
    events := [.line "[DONE]", .sentinel] }

/-- A benign Spotify run (engine finishes without output). -/
def c2SpotW : SpotInput :=
  { cfg := ⟨"x", "/lib", "flat", "", "tidal", "flac"⟩, events := [.sentinel] }

/-- A benign ytmusic run (clean exit, no output). -/
def c2YtW : YtInput :=
  ⟨⟨"https://music.youtube.com/watch?v=abc", "/lib", "opus", true, "flat", ""⟩,
   .complete 0, []⟩

/-- A Spotify run that stalls immediately: the producer never feeds the
queue, so the 300 s wait times out. -/
def c9W : SpotInput :=
  { cfg := ⟨"x", "/lib", "flat", "", "tidal", "flac"⟩, events := [] }

/-- A ytmusic session whose process stays silent (no stdout lines) for the
whole run: during the silence the read loop of `download_ytmusic_stream`
(ytmusic.py line 107) simply keeps waiting — it has no `wait_for` timeout —
so nothing at all is emitted until the process itself ends; here it finally
exits cleanly. -/
def c9YtSilent : YtInput :=
  ⟨⟨"https://music.youtube.com/watch?v=abc", "/lib", "opus", true, "flat", ""⟩,
   .complete 0, []⟩

/-- A Spotify run cancelled at the first loop iteration
(`cancel_event.is_set()` observed). -/
def c6SpotW : SpotInput :=
  { cfg := ⟨"x", "/lib", "flat", "", "tidal", "flac"⟩, events := [.cancelObserved] }

/-- A cancelled ytmusic job: `cancel_download` terminates the child, its
stdout closes with no further lines, and `process.wait()` reports the
SIGTERM exit status -15. -/
def c6YtCancelled : YtInput :=
  ⟨⟨"https://music.youtube.com/watch?v=abc", "/lib", "opus", true, "flat", ""⟩,
   .complete (-15), []⟩

/-- A ytmusic run whose spawn fails with `FileNotFoundError` (yt-dlp not
installed): a launch failure. -/
def c3FailInput : YtInput :=
  ⟨⟨"https://music.youtube.com/watch?v=abc", "/lib", "opus", true, "flat", ""⟩,
   .spawnNotFound, []⟩

/-- A stored definition whose config snapshot has a `"spotify"` sub-dict
with artist/album subfolders enabled. -/
def c7Orig : Playlist :=
  { id := "p1", url := "https://open.spotify.com/playlist/x", name := "P",
    provider := "Spotify",
    config := { libraryPath := "/lib",
                spotify := some { spotiflacPath := none,
                                  artistSubfolders := some true,
                                  albumSubfolders := some true } } }

def c7Store : List (String × Playlist) := [("p1", c7Orig)]

/-- The store after one scheduled run of `p1` (no global spotiflac path, an
empty session). -/
def c7After : List (String × Playlist) :=
  runSyncJobEffect "" "2026-01-01T00:00:00" "p1" [] c7Store

/-- A minimal add-playlist request for the scheduler witness. -/
def c8D : AddData :=
  { url := "https://open.spotify.com/playlist/x", name := "P", provider := "Spotify",
    config := { libraryPath := "/lib" } }

/-- A state reached by startup on the empty store, an add, a disable and a
re-enable of the same definition. -/
def c8St : SyncState :=
  updatePlaylistOp "p1" { enabled := some true }
    (updatePlaylistOp "p1" { enabled := some false }
      (addPlaylistOp "p1" c8D (startupState [])))

-- ===================== Theorems =====================

-- ── dict lemmas (shared) ──

theorem dictLookup_insert_self {α : Type} (k : String) (v : α) (l : List (String × α)) :
    dictLookup k (dictInsert k v l) = some v := by
  induction l with
  | nil => simp [dictInsert, dictLookup]
  | cons hd tl ih =>
    obtain ⟨k', v'⟩ := hd
    by_cases h : k' = k
    · simp [dictInsert, dictLookup, h]
    · simp [dictInsert, dictLookup, h, ih]

theorem dictLookup_insert_ne {α : Type} (k q : String) (v : α) (l : List (String × α))
    (h : q ≠ k) : dictLookup q (dictInsert k v l) = dictLookup q l := by
  have hkq : ¬ k = q := fun hh => h hh.symm
  induction l with
  | nil => simp [dictInsert, dictLookup, hkq]
  | cons hd tl ih =>
    obtain ⟨k', v'⟩ := hd
    by_cases hk : k' = k
    · subst hk
      simp [dictInsert, dictLookup, hkq]
    · simp [dictInsert, dictLookup, hk, ih]

theorem dictKeys_cons {α : Type} (k' : String) (v' : α) (tl : List (String × α)) :
    dictKeys ((k', v') :: tl) = k' :: dictKeys tl := rfl

theorem dictKeys_insert_mem {α : Type} (k : String) (v : α) :
    ∀ (l : List (String × α)), k ∈ dictKeys l → dictKeys (dictInsert k v l) = dictKeys l := by
  intro l
  induction l with
  | nil => intro h; simp [dictKeys] at h
  | cons hd tl ih =>
    intro h
    obtain ⟨k', v'⟩ := hd
    by_cases hk : k' = k
    · simp [dictInsert, dictKeys_cons, hk]
    · have hm : k ∈ dictKeys tl := by
        rw [dictKeys_cons] at h
        rcases List.mem_cons.mp h with h1 | h1
        · exact absurd h1.symm hk
        · exact h1
      rw [show dictInsert k v ((k', v') :: tl) = (k', v') :: dictInsert k v tl by
            simp [dictInsert, hk]]
      rw [dictKeys_cons, dictKeys_cons, ih hm]

theorem dictKeys_insert_not_mem {α : Type} (k : String) (v : α) :
    ∀ (l : List (String × α)), k ∉ dictKeys l →
      dictKeys (dictInsert k v l) = dictKeys l ++ [k] := by
  intro l
  induction l with
  | nil => intro _; simp [dictInsert, dictKeys]
  | cons hd tl ih =>
    intro h
    obtain ⟨k', v'⟩ := hd
    rw [dictKeys_cons] at h
    have hk : ¬ k' = k := fun hh => h (by simp [hh])
    have hm : k ∉ dictKeys tl := fun hh => h (List.mem_cons.mpr (Or.inr hh))
    rw [show dictInsert k v ((k', v') :: tl) = (k', v') :: dictInsert k v tl by
          simp [dictInsert, hk]]
    rw [dictKeys_cons, dictKeys_cons, ih hm]
    rfl

theorem nodup_keys_insert {α : Type} (k : String) (v : α) (l : List (String × α))
    (h : (dictKeys l).Nodup) : (dictKeys (dictInsert k v l)).Nodup := by
  by_cases hm : k ∈ dictKeys l
  · rw [dictKeys_insert_mem k v l hm]; exact h
  · rw [dictKeys_insert_not_mem k v l hm]
    simpa [List.nodup_append] using ⟨h, fun hh => hm hh⟩

theorem mem_keys_insert_self {α : Type} (k : String) (v : α) (l : List (String × α)) :
    k ∈ dictKeys (dictInsert k v l) := by
  by_cases hm : k ∈ dictKeys l
  · rw [dictKeys_insert_mem k v l hm]; exact hm
  · rw [dictKeys_insert_not_mem k v l hm]; simp

theorem count_keys_nodup {α : Type} (k : String) (l : List (String × α))
    (h : (dictKeys l).Nodup) (hm : k ∈ dictKeys l) : (dictKeys l).count k = 1 := by
  have h1 : (dictKeys l).count k ≤ 1 := (List.nodup_iff_count_le_one.mp h) k
  have h2 : 0 < (dictKeys l).count k := List.count_pos_iff.mpr hm
  omega

theorem dictLookup_remove_ne {α : Type} (k q : String) (l : List (String × α))
    (h : q ≠ k) : dictLookup q (dictRemove k l) = dictLookup q l := by
  induction l with
  | nil => simp [dictRemove, dictLookup]
  | cons hd tl ih =>
    obtain ⟨k', v'⟩ := hd
    by_cases hk : k' = k
    · have hkq : ¬ k' = q := fun hh => h (hk ▸ hh).symm
      have hkq2 : ¬ k = q := fun hh => h hh.symm
      simp [dictRemove, dictLookup, hk, hkq, hkq2]
    · simp [dictRemove, dictLookup, hk, ih]

theorem dictLookup_none_of_not_mem {α : Type} (k : String) :
    ∀ (l : List (String × α)), k ∉ dictKeys l → dictLookup k l = none := by
  intro l
  induction l with
  | nil => intro _; rfl
  | cons hd tl ih =>
    intro h
    obtain ⟨k', v'⟩ := hd
    rw [dictKeys_cons] at h
    have hk : ¬ k' = k := fun hh => h (by simp [hh])
    have hm : k ∉ dictKeys tl := fun hh => h (List.mem_cons.mpr (Or.inr hh))
    simp [dictLookup, hk]
    exact ih hm

theorem dictLookup_remove_self {α : Type} (k : String) (l : List (String × α))
    (h : (dictKeys l).Nodup) : dictLookup k (dictRemove k l) = none := by
  induction l with
  | nil => simp [dictRemove, dictLookup]
  | cons hd tl ih =>
    obtain ⟨k', v'⟩ := hd
    rw [dictKeys_cons] at h
    by_cases hk : k' = k
    · rw [show dictRemove k ((k', v') :: tl) = tl by simp [dictRemove, hk]]
      exact dictLookup_none_of_not_mem k tl (hk ▸ (List.nodup_cons.mp h).1)
    · simp [dictRemove, dictLookup, hk]
      exact ih (List.nodup_cons.mp h).2

-- ── C1 ──

/-- C1: for every terminated download session the terminal success flag of
`_spotiflac_stream` equals
`not fatal AND not cancelled AND not (errors > 0 AND downloaded = 0 AND attempted > 0)`
where attempted is the observed total item count, and the two literal
inputs of the claim evaluate as stated. -/
theorem c1_success_formula :
    (∀ (f c : Bool) (e d t : Nat),
      successFlag f c e d t =
        (!f && !c && !(decide (e > 0) && decide (d = 0) && decide (t > 0)))) ∧
    successFlag false false 3 0 3 = false ∧
    successFlag false false 1 5 6 = true := by
  refine ⟨fun f c e d t => rfl, by decide, by decide⟩

-- ── C10 ──

/-- C10: when the sync store file exists but cannot be read or parsed,
startup loading yields the empty definition map instead of raising. -/
theorem c10_corrupt_store_loads_empty : syncLoad true none = [] := rfl

-- ── C5 ──

/-- C5 counterexample: registering id `"j"` while `"j"` is already present
replaces the stored entry (Python dict assignment), so register on a
duplicate id is NOT a rejected no-op. -/
theorem c5_counterexample :
    dictLookup "j" (registerJob "j" jobB [("j", jobA)]) = some jobB ∧ jobB ≠ jobA := by
  exact ⟨rfl, by decide⟩

/-- C5 amended: at most one Job Registry entry exists per id at any time
(dict keys stay unique under registration), but `register` on an id already
present overwrites the existing entry rather than rejecting. -/
theorem c5_amended (reg : List (String × Job)) (k : String) (v : Job)
    (h : (dictKeys reg).Nodup) :
    (dictKeys (registerJob k v reg)).Nodup ∧
    (dictKeys (registerJob k v reg)).count k = 1 ∧
    dictLookup k (registerJob k v reg) = some v := by
  refine ⟨nodup_keys_insert k v reg h, ?_, dictLookup_insert_self k v reg⟩
  exact count_keys_nodup k _ (nodup_keys_insert k v reg h) (mem_keys_insert_self k v reg)

theorem c5_amended_witness :
    (dictKeys [("j", jobA)]).Nodup ∧
    ((dictKeys (registerJob "j" jobB [("j", jobA)])).Nodup ∧
     (dictKeys (registerJob "j" jobB [("j", jobA)])).count "j" = 1 ∧
     dictLookup "j" (registerJob "j" jobB [("j", jobA)]) = some jobB) :=
  ⟨by decide, c5_amended [("j", jobA)] "j" jobB (by decide)⟩

-- ── C3 ──

/-- C3 (code bug): a scheduled sync run whose session output contains a
launch-failure marker is still classified `success`: the classifier
strings of `_run_sync_job` (sync.py line 215) do not match the messages the
providers actually emit, and the structured status event is skipped because
it does not start with `data: `. -/
theorem c3_code_bug_eval :
    (runSyncClassify (ytmusicStream c3FailInput)).1 = "success" ∧
    dataChunk "❌ yt-dlp not found. Install: pip install -U yt-dlp" ∈
      ytmusicStream c3FailInput := by
  exact ⟨by decide, by decide⟩

-- ── C7 ──

/-- C7 (code bug): running a sync mutates the stored job configuration
snapshot: `_build_config`'s shallow `dict(...)` copy shares the nested
`"spotify"` dict with the store, so forcing the subfolder flags off writes
through to the stored definition (and the subsequent save persists it). -/
theorem c7_code_bug_eval :
    (dictLookup "p1" c7After).map Playlist.config ≠ some c7Orig.config ∧
    (dictLookup "p1" c7After).map (fun p => p.config.spotify) =
      some (some { spotiflacPath := none, artistSubfolders := some false,
                   albumSubfolders := some false }) := by
  exact ⟨by decide, by decide⟩

theorem stringDataInj {a b : String} (h : a.data = b.data) : a = b := by
  cases a; cases b; exact congrArg String.mk h

theorem sdata_append (a b : String) : (a ++ b).data = a.data ++ b.data := rfl

theorem slen_append (a b : String) : (a ++ b).length = a.length + b.length := by
  show (a ++ b).data.length = a.data.length + b.data.length
  rw [sdata_append, List.length_append]

/-- `dataChunk` is injective, hence a data chunk equals the end-of-stream
marker exactly when the carried line is `"[DONE]"`. -/
theorem dataChunk_eq_done_iff (m : String) : dataChunk m = doneChunk ↔ m = "[DONE]" := by
  constructor
  · intro h
    have hd : ("data: " ++ m ++ "\n\n").data = ("data: " ++ "[DONE]" ++ "\n\n").data := by
      have : doneChunk = "data: " ++ "[DONE]" ++ "\n\n" := rfl
      simpa [dataChunk, this] using congrArg String.data h
    simp only [sdata_append] at hd
    apply stringDataInj
    have h1 := List.append_cancel_right hd
    exact List.append_cancel_left h1
  · intro h; subst h; rfl

theorem ne_done_of_msg_ne (m : String) (h : m ≠ "[DONE]") : dataChunk m ≠ doneChunk := by
  intro hc; exact h ((dataChunk_eq_done_iff m).mp hc)

/-- A message whose length differs from 6 cannot be `"[DONE]"`. -/
theorem msg_ne_done_of_len {m : String} (h : m.length ≠ 6) : m ≠ "[DONE]" := by
  intro hc; exact h (hc ▸ rfl)

/-- A message with a long enough concrete head part is never `"[DONE]"`. -/
theorem msg_ne_done_of_long (p v : String) (h : 7 ≤ p.length) :
    p ++ v ≠ "[DONE]" := by
  apply msg_ne_done_of_len
  rw [slen_append]; omega

/-- A message whose first character is not `'['` is never `"[DONE]"`. -/
theorem msg_ne_done_of_head (p v : String) (c : Char) (hc : p.data.head? = some c)
    (h : c ≠ '[') : p ++ v ≠ "[DONE]" := by
  intro hcontra
  have hd : (p ++ v).data = ("[DONE]" : String).data := congrArg String.data hcontra
  rw [sdata_append] at hd
  cases hp : p.data with
  | nil => rw [hp] at hc; simp at hc
  | cons a as =>
    rw [hp] at hc hd
    simp at hc
    have ha : a = '[' := by
      have h2 := congrArg List.head? hd
      simp at h2
      exact h2
    exact h (hc.symm.trans ha)

/-- An `event:`-prefixed chunk never equals the end-of-stream marker
(first character `'e'` vs `'d'`). -/
theorem evChunk_ne_done (k payload : String) : evChunk k payload ≠ doneChunk := by
  intro h
  have hd : (evChunk k payload).data = doneChunk.data := congrArg String.data h
  simp only [evChunk, doneChunk, sdata_append] at hd
  have := congrArg List.head? hd
  simp [List.head?_append] at this

-- ── C4 ──

/-- C4: `cancel(id)` on an unknown id fails with Not-Found; on a known id
it sends the graceful terminate, attempts the force-kill exactly when the
process did not exit within the grace period (5 seconds, the literal at
main.py line 277), removes the job from the registry (leaving other
entries untouched), and returns the partial-file sweep count when the
provider is the download-engine type (`ytmusic`) with a usable library
directory, 0 otherwise; sweep failures are swallowed inside
`cleanupPartialFiles`. -/
theorem c4_cancel (reg : List (String × Job)) (jobId libArg : String)
    (wait : WaitOutcome) (isDir : Bool) (files : List PartFile) (gf : Option Nat)
    (hnd : (dictKeys reg).Nodup) :
    cancelGraceSeconds = 5 ∧
    (dictLookup jobId reg = none →
      cancelDownload reg jobId libArg wait isDir files gf =
        Except.error "Job not found or already finished.") ∧
    (∀ job, dictLookup jobId reg = some job →
      cancelDownload reg jobId libArg wait isDir files gf =
        Except.ok (dictRemove jobId reg,
          { status := "cancelled",
            partialFilesDeleted :=
              if job.provider == "ytmusic" &&
                 (if libArg != "" then libArg else job.libraryPath) != "" && isDir
              then cleanupPartialFiles files gf else 0,
            terminateSent := true,
            killAttempted := wait != WaitOutcome.exited }) ∧
      dictLookup jobId (dictRemove jobId reg) = none ∧
      (∀ q, q ≠ jobId → dictLookup q (dictRemove jobId reg) = dictLookup q reg)) := by
  refine ⟨rfl, fun h => by simp [cancelDownload, h], fun job hj => ?_⟩
  refine ⟨by simp [cancelDownload, hj], dictLookup_remove_self jobId reg hnd,
    fun q hq => dictLookup_remove_ne jobId q reg hq⟩

theorem c4_cancel_witness :
    (dictKeys [("j", jobA)]).Nodup ∧
    (cancelGraceSeconds = 5 ∧
     (dictLookup "j" [("j", jobA)] = none →
       cancelDownload [("j", jobA)] "j" "" WaitOutcome.timedOut true
         [⟨"x.part", false⟩] none = Except.error "Job not found or already finished.") ∧
     (∀ job, dictLookup "j" [("j", jobA)] = some job →
       cancelDownload [("j", jobA)] "j" "" WaitOutcome.timedOut true
         [⟨"x.part", false⟩] none =
         Except.ok (dictRemove "j" [("j", jobA)],
           { status := "cancelled",
             partialFilesDeleted :=
               if job.provider == "ytmusic" &&
                  (if ("" : String) != "" then "" else job.libraryPath) != "" && true
               then cleanupPartialFiles [⟨"x.part", false⟩] none else 0,
             terminateSent := true,
             killAttempted := WaitOutcome.timedOut != WaitOutcome.exited }) ∧
       dictLookup "j" (dictRemove "j" [("j", jobA)]) = none ∧
       (∀ q, q ≠ "j" →
         dictLookup q (dictRemove "j" [("j", jobA)]) = dictLookup q [("j", jobA)]))) :=
  ⟨by decide,
   c4_cancel [("j", jobA)] "j" "" WaitOutcome.timedOut true [⟨"x.part", false⟩] none
     (by decide)⟩

-- ── string-shape helper lemmas for the end-of-stream analysis ──

theorem sappend_assoc (a b c : String) : a ++ b ++ c = a ++ (b ++ c) :=
  stringDataInj (by simp [sdata_append])

theorem dataChunk_inj {a b : String} : dataChunk a = dataChunk b ↔ a = b := by
  constructor
  · intro h
    have hd := congrArg String.data h
    simp only [dataChunk, sdata_append] at hd
    exact stringDataInj (List.append_cancel_left (List.append_cancel_right hd))
  · intro h; rw [h]

/-- Membership-orientation simp form: a data chunk equals the marker iff
its line is the marker text. -/
theorem done_eq_dataChunk_iff (m : String) :
    (doneChunk = dataChunk m) ↔ (m = "[DONE]") := by
  rw [show doneChunk = dataChunk "[DONE]" from rfl, eq_comm, dataChunk_inj]

@[simp] theorem done_eq_evChunk_iff (k p : String) :
    (doneChunk = evChunk k p) ↔ False :=
  iff_false_intro (fun h => evChunk_ne_done k p h.symm)

theorem append2_ne_done (p x : String) (hp : 7 ≤ p.length) :
    (p ++ x = "[DONE]") ↔ False :=
  iff_false_intro (msg_ne_done_of_long p x hp)

theorem append3_ne_done (p x q : String) (hp : 7 ≤ p.length) :
    (p ++ x ++ q = "[DONE]") ↔ False := by
  refine iff_false_intro (msg_ne_done_of_len ?_)
  rw [slen_append, slen_append]
  have : ("[DONE]" : String).length = 6 := by decide
  omega

theorem append4_ne_done (p x q y : String) (hp : 7 ≤ p.length) :
    (p ++ x ++ q ++ y = "[DONE]") ↔ False := by
  refine iff_false_intro (msg_ne_done_of_len ?_)
  rw [slen_append, slen_append, slen_append]
  omega

theorem append5_ne_done (p x q y r : String) (hp : 7 ≤ p.length) :
    (p ++ x ++ q ++ y ++ r = "[DONE]") ↔ False := by
  refine iff_false_intro (msg_ne_done_of_len ?_)
  rw [slen_append, slen_append, slen_append, slen_append]
  omega

theorem head_of_append (p x : String) {c : Char} (h : p.data.head? = some c) :
    (p ++ x).data.head? = some c := by
  rw [sdata_append]
  cases hp : p.data with
  | nil => rw [hp] at h; cases h
  | cons a as =>
    rw [hp] at h
    simp at h
    simp [h]

theorem append2_head_ne_done (p x : String) (c : Char) (hc : p.data.head? = some c)
    (h : c ≠ '[') : (p ++ x = "[DONE]") ↔ False :=
  iff_false_intro (msg_ne_done_of_head p x c hc h)

theorem append4_head_ne_done (p x q y : String) (c : Char) (hc : p.data.head? = some c)
    (h : c ≠ '[') : (p ++ x ++ q ++ y = "[DONE]") ↔ False := by
  refine iff_false_intro ?_
  rw [sappend_assoc, sappend_assoc]
  exact msg_ne_done_of_head p _ c hc h

-- per-template instances (Spotify stream)
@[simp] theorem tmpl_spot_err (x : String) :
    ("SpotiFLAC error: " ++ x = "[DONE]") ↔ False := append2_ne_done _ _ (by decide)

@[simp] theorem tmpl_spot_read_err (x : String) :
    ("Unexpected error reading SpotiFLAC output: " ++ x = "[DONE]") ↔ False :=
  append2_ne_done _ _ (by decide)

@[simp] theorem tmpl_spot_flatten (n d : String) :
    ("Flattening SpotiFLAC subfolder '" ++ n ++ "' into '" ++ d ++ "'..." = "[DONE]") ↔ False :=
  append5_ne_done _ _ _ _ _ (by decide)

@[simp] theorem tmpl_spot_complete (d : String) :
    ("✅ SpotiFLAC download complete! Files saved to '" ++ d ++ "'." = "[DONE]") ↔ False :=
  append3_ne_done _ _ _ (by decide)

@[simp] theorem tmpl_spot_tracks (x : String) :
    ("  Tracks downloaded : " ++ x = "[DONE]") ↔ False := append2_ne_done _ _ (by decide)

@[simp] theorem tmpl_spot_skipped (x : String) :
    ("  Already existed   : " ++ x ++ " (skipped)" = "[DONE]") ↔ False :=
  append3_ne_done _ _ _ (by decide)

@[simp] theorem tmpl_spot_failed (x : String) :
    ("  ⚠️  Failed          : " ++ x = "[DONE]") ↔ False := append2_ne_done _ _ (by decide)

@[simp] theorem tmpl_spot_cf (x : String) :
    ("❌ No tracks could be downloaded (" ++ x ++
      " failed). Try a different service or use YouTube Music instead." = "[DONE]") ↔ False :=
  append3_ne_done _ _ _ (by decide)

@[simp] theorem tmpl_spot_mkdir (d e : String) :
    ("Could not create directory '" ++ d ++ "': " ++ e = "[DONE]") ↔ False :=
  append4_ne_done _ _ _ _ (by decide)

@[simp] theorem tmpl_trans_banner (f : String) :
    ("Transcoding FLAC to " ++ f ++ " using FFmpeg. This may take a while..." = "[DONE]") ↔ False :=
  append3_ne_done _ _ _ (by decide)

@[simp] theorem tmpl_trans_none (d : String) :
    ("No FLAC files found in '" ++ d ++ "' to transcode." = "[DONE]") ↔ False :=
  append3_ne_done _ _ _ (by decide)

@[simp] theorem tmpl_trans_found (x : String) :
    ("  Found " ++ x ++ " FLAC file(s) to transcode." = "[DONE]") ↔ False :=
  append3_ne_done _ _ _ (by decide)

@[simp] theorem tmpl_trans_pair (n o : String) :
    ("  " ++ n ++ " -> " ++ o = "[DONE]") ↔ False :=
  append4_head_ne_done _ _ _ _ ' ' rfl (by decide)

@[simp] theorem tmpl_trans_cover (e : String) :
    ("  Cover art embedding failed (file is still OK): " ++ e = "[DONE]") ↔ False :=
  append2_ne_done _ _ (by decide)

@[simp] theorem tmpl_trans_ffmpeg_err (n c : String) :
    ("  FFmpeg error for '" ++ n ++ "' (code " ++ c ++ "). Original kept." = "[DONE]") ↔ False :=
  append5_ne_done _ _ _ _ _ (by decide)

@[simp] theorem tmpl_trans_exc (m : String) :
    ("  Transcoding error: " ++ m = "[DONE]") ↔ False := append2_ne_done _ _ (by decide)

@[simp] theorem tmpl_trans_done_msg (t f : String) :
    ("Transcoding complete! " ++ t ++ " file(s) converted to " ++ f ++ "." = "[DONE]") ↔ False :=
  append5_ne_done _ _ _ _ _ (by decide)

@[simp] theorem tmpl_trans_failcount (e : String) :
    ("  " ++ e ++ " file(s) failed to transcode." = "[DONE]") ↔ False := by
  refine iff_false_intro (msg_ne_done_of_len ?_)
  rw [slen_append, slen_append]
  have : ("  " : String).length = 2 := by decide
  have : (" file(s) failed to transcode." : String).length = 29 := by decide
  omega

@[simp] theorem tmpl_spot_banner (s : String) :
    ("Starting Spotify download via SpotiFLAC (service: " ++ s ++ ")..." = "[DONE]") ↔ False :=
  append3_ne_done _ _ _ (by decide)

@[simp] theorem tmpl_spot_folder (x : String) :
    ("  Output folder : " ++ x = "[DONE]") ↔ False := append2_ne_done _ _ (by decide)

-- per-template instances (ytmusic stream and main.py wrappers)
@[simp] theorem tmpl_yt_banner (x : String) :
    ("▶ Starting " ++ x ++ "download..." = "[DONE]") ↔ False :=
  append3_ne_done _ _ _ (by decide)

@[simp] theorem tmpl_yt_mode (x : String) :
    ("  Mode: " ++ x = "[DONE]") ↔ False := append2_ne_done _ _ (by decide)

@[simp] theorem tmpl_yt_cmd (x : String) :
    ("$ " ++ x = "[DONE]") ↔ False := append2_head_ne_done _ _ '$' rfl (by decide)

@[simp] theorem tmpl_yt_mkdir (e : String) :
    ("❌ Could not create directory: " ++ e = "[DONE]") ↔ False :=
  append2_ne_done _ _ (by decide)

@[simp] theorem tmpl_yt_unexpected (e : String) :
    ("❌ Unexpected error: " ++ e = "[DONE]") ↔ False := append2_ne_done _ _ (by decide)

@[simp] theorem tmpl_yt_exitcode (c : String) :
    ("❌ yt-dlp exited with code " ++ c ++ "." = "[DONE]") ↔ False :=
  append3_ne_done _ _ _ (by decide)

@[simp] theorem tmpl_yt_tracks (x : String) :
    ("  Tracks downloaded : " ++ x = "[DONE]") ↔ False := append2_ne_done _ _ (by decide)

@[simp] theorem tmpl_yt_skipped (x : String) :
    ("  Already existed   : " ++ x ++ " (skipped)" = "[DONE]") ↔ False :=
  append3_ne_done _ _ _ (by decide)

@[simp] theorem tmpl_yt_failed (x : String) :
    ("  ⚠️  Failed          : " ++ x ++ " (age-restricted / unavailable)" = "[DONE]") ↔ False :=
  append3_ne_done _ _ _ (by decide)

@[simp] theorem tmpl_yt_saved (x : String) :
    ("  Saved to          : " ++ x = "[DONE]") ↔ False := append2_ne_done _ _ (by decide)

@[simp] theorem tmpl_yt_format (x : String) :
    ("  Format            : " ++ x = "[DONE]") ↔ False := append2_ne_done _ _ (by decide)

@[simp] theorem tmpl_yt_done_title (t l f : String) :
    ("✅ Done! '" ++ t ++ "' saved to '" ++ l ++ "' as " ++ f ++ "." = "[DONE]") ↔ False := by
  refine iff_false_intro (msg_ne_done_of_len ?_)
  rw [slen_append, slen_append, slen_append, slen_append, slen_append, slen_append]
  have : ("✅ Done! '" : String).length = 9 := by decide
  omega

theorem tmpl_yt_done_plain (l : String) :
    ("✅ Download complete! File saved to '" ++ l ++ "'." = "[DONE]") ↔ False :=
  append3_ne_done _ _ _ (by decide)

@[simp] theorem tmpl_err_stream (m : String) :
    ("❌ " ++ m = "[DONE]") ↔ False := append2_head_ne_done _ _ '❌' rfl (by decide)

-- ── EndsOnce toolkit ──

theorem endsOnce_count {l : List String} (h : EndsOnce l) : l.count doneChunk = 1 := by
  obtain ⟨pre, rfl, hn⟩ := h
  rw [List.count_append]
  rw [List.count_eq_zero_of_not_mem hn]
  simp

theorem endsOnce_last {l : List String} (h : EndsOnce l) : l.getLast? = some doneChunk := by
  obtain ⟨pre, rfl, -⟩ := h
  simp

theorem endsOnce_prepend {pre l : List String} (hp : doneChunk ∉ pre) (h : EndsOnce l) :
    EndsOnce (pre ++ l) := by
  obtain ⟨p2, rfl, hn⟩ := h
  refine ⟨pre ++ p2, by simp, ?_⟩
  simp only [List.mem_append]
  exact fun hc => hc.elim hp hn

/-- `stream_with_lifecycle` preserves the exactly-one-marker property: the
job-id event is not a marker, an uninterrupted pass-through keeps the
provider's marker, and an interruption truncates before the provider's
marker and appends exactly one. -/
theorem endsOnce_wrapper (j : String) (chunks : List String) (r : Option Nat)
    (h : EndsOnce chunks) : EndsOnce (streamWithLifecycle j chunks r) := by
  have hjob : doneChunk ≠ metaJobId j := fun hc => evChunk_ne_done _ _ hc.symm
  obtain ⟨pre, hpre, hn⟩ := h
  unfold streamWithLifecycle
  match r with
  | none =>
    show EndsOnce ([metaJobId j] ++ chunks)
    refine endsOnce_prepend ?_ ⟨pre, hpre, hn⟩
    simp [hjob]
  | some k =>
    by_cases hk : k < chunks.length
    · simp only [hk, if_true]
      have hlen : k ≤ pre.length := by
        have := hpre ▸ hk
        simp at this
        omega
      have htake : chunks.take k = pre.take k := by
        rw [hpre, List.take_append_of_le_length hlen]
      refine ⟨metaJobId j :: (chunks.take k ++ [dataChunk "❌ Stream interrupted."]), by simp, ?_⟩
      intro hc
      rcases List.mem_cons.mp hc with hc | hc
      · exact hjob hc
      rcases List.mem_append.mp hc with hc | hc
      · rw [htake] at hc
        exact hn (List.take_subset k pre hc)
      · have : doneChunk = dataChunk "❌ Stream interrupted." := by simpa using hc
        rw [done_eq_dataChunk_iff] at this
        simp at this
    · simp only [hk, if_false]
      show EndsOnce ([metaJobId j] ++ chunks)
      refine endsOnce_prepend ?_ ⟨pre, hpre, hn⟩
      simp [hjob]

/-- `error_stream` emits exactly one marker, last. -/
theorem errorStream_endsOnce (m : String) : EndsOnce (errorStream m) := by
  refine ⟨[dataChunk ("❌ " ++ m)], rfl, ?_⟩
  simp [done_eq_dataChunk_iff]

@[simp] theorem done_eq_metaTitle (v : String) : (doneChunk = metaTitle v) ↔ False :=
  done_eq_evChunk_iff _ _

@[simp] theorem done_eq_metaProgress (c : Int) (t : Nat) :
    (doneChunk = metaProgress c t) ↔ False := done_eq_evChunk_iff _ _

@[simp] theorem done_eq_metaThumb (u : String) : (doneChunk = metaThumb u) ↔ False :=
  done_eq_evChunk_iff _ _

@[simp] theorem done_eq_metaJobId (i : String) : (doneChunk = metaJobId i) ↔ False :=
  done_eq_evChunk_iff _ _

@[simp] theorem done_eq_statusChunk (s : Bool) (d e k : Nat) :
    (doneChunk = statusChunk s d e k) ↔ False := done_eq_evChunk_iff _ _

@[simp] theorem done_eq_statusFail : (doneChunk = statusFailChunk) ↔ False :=
  done_eq_evChunk_iff _ _

-- ── no-marker lemmas for the Spotify stream ──

theorem spotLineStep_no_done (l : String) (st : SStats) (h : l ≠ "[DONE]") :
    doneChunk ∉ (spotLineStep l st).1 := by
  unfold spotLineStep
  repeat' split
  all_goals
    simp [done_eq_dataChunk_iff, h]

theorem spotLoop_no_done (evs : List SpotEvent) (st : SStats)
    (h : ∀ s, SpotEvent.line s ∈ evs → s ≠ "[DONE]") :
    doneChunk ∉ (spotLoop evs st).1 := by
  induction evs generalizing st with
  | nil => simp [spotLoop, done_eq_dataChunk_iff]
  | cons ev rest ih =>
    match ev with
    | .cancelObserved => simp [spotLoop]
    | .sentinel => simp [spotLoop]
    | .stall => simp [spotLoop, done_eq_dataChunk_iff]
    | .readErr m => simp [spotLoop, done_eq_dataChunk_iff]
    | .line l =>
      have hl : l ≠ "[DONE]" := h l (List.mem_cons.mpr (Or.inl rfl))
      have hrest : ∀ s, SpotEvent.line s ∈ rest → s ≠ "[DONE]" :=
        fun s hs => h s (List.mem_cons.mpr (Or.inr hs))
      simp only [spotLoop]
      intro hc
      rcases List.mem_append.mp (by simpa using hc) with hc | hc
      · exact spotLineStep_no_done l st hl hc
      · exact ih _ hrest hc

theorem spotBanner_no_done (c : SpotCfg) : doneChunk ∉ spotBanner c := by
  unfold spotBanner
  repeat' split
  all_goals simp [done_eq_dataChunk_iff]

theorem flattenChunks_no_done (n : String) (subs : List String) :
    doneChunk ∉ flattenChunks n subs := by
  unfold flattenChunks
  intro hc
  rcases List.mem_map.mp hc with ⟨x, -, hx⟩
  have := (done_eq_dataChunk_iff _).mp hx.symm
  simp at this

theorem transFileChunks_no_done (f : TFile) : doneChunk ∉ (transFileChunks f).1 := by
  unfold transFileChunks
  cases f with
  | ok n o cov => cases cov <;> simp [done_eq_dataChunk_iff]
  | ffmpegErr n o cd => simp [done_eq_dataChunk_iff]
  | exc n o m => simp [done_eq_dataChunk_iff]

theorem transLoop_no_done (fmtU : String) (i : Nat) (missing : Option Nat)
    (files : List TFile) : doneChunk ∉ (transLoop fmtU i missing files).1 := by
  induction files generalizing i with
  | nil => simp [transLoop]
  | cons f rest ih =>
    unfold transLoop
    split
    · simp [done_eq_dataChunk_iff]
    · intro hc
      rcases List.mem_append.mp (by simpa using hc) with hc | hc
      · exact transFileChunks_no_done f hc
      · exact ih _ hc

theorem transcodeChunks_no_done (d f : String) (inp : TransInput) :
    doneChunk ∉ transcodeChunks d f inp := by
  unfold transcodeChunks
  intro hc
  rcases List.mem_cons.mp hc with hc | hc
  · rw [done_eq_dataChunk_iff] at hc; simp at hc
  split at hc
  · simp [done_eq_dataChunk_iff] at hc
  · rcases List.mem_cons.mp hc with hc | hc
    · rw [done_eq_dataChunk_iff] at hc; simp at hc
    rcases List.mem_append.mp hc with hc | hc
    · exact transLoop_no_done _ _ _ _ hc
    · split at hc
      · simp at hc
      · rcases List.mem_append.mp hc with hc | hc
        · simp [done_eq_dataChunk_iff] at hc
        · split at hc <;> simp [done_eq_dataChunk_iff] at hc

theorem spotTailPre_no_done (c : SpotCfg) (fl : List String) (tr : TransInput)
    (st : SStats) : doneChunk ∉ spotTailPre c fl tr st := by
  unfold spotTailPre
  intro hc
  rcases List.mem_cons.mp hc with hc | hc
  · rw [done_eq_dataChunk_iff] at hc; simp at hc
  split at hc
  · simp [done_eq_dataChunk_iff] at hc
  split at hc
  · rcases List.mem_append.mp hc with hc | hc
    · rcases List.mem_append.mp hc with hc | hc
      · rcases List.mem_append.mp hc with hc | hc
        · rcases List.mem_append.mp hc with hc | hc
          · rcases List.mem_append.mp hc with hc | hc
            · split at hc
              · exact flattenChunks_no_done _ _ hc
              · simp at hc
            · simp [done_eq_dataChunk_iff] at hc
          · split at hc <;> simp [done_eq_dataChunk_iff] at hc
        · split at hc <;> simp [done_eq_dataChunk_iff] at hc
      · split at hc <;> simp [done_eq_dataChunk_iff] at hc
    · split at hc
      · rcases List.mem_cons.mp hc with hc | hc
        · rw [done_eq_dataChunk_iff] at hc; simp at hc
        · exact transcodeChunks_no_done _ _ _ hc
      · simp at hc
  split at hc
  · simp [done_eq_dataChunk_iff] at hc
  · simp [done_eq_dataChunk_iff] at hc

theorem spotTail_endsOnce (c : SpotCfg) (fl : List String) (tr : TransInput)
    (st : SStats) : EndsOnce (spotTail c fl tr st) := by
  unfold spotTail
  refine ⟨spotTailPre c fl tr st ++
    [statusChunk (successFlag st.fatal st.cancelled st.errors st.downloaded st.totalCount)
       st.downloaded st.errors st.skipped], ?_, ?_⟩
  · simp
  · intro hc
    rcases List.mem_append.mp hc with hc | hc
    · exact spotTailPre_no_done c fl tr st hc
    · simp at hc

/-- Every `_spotiflac_stream` run whose raw output lines never equal the
marker text ends with exactly one end-of-stream marker. -/
theorem spotStream_endsOnce (inp : SpotInput)
    (h : ∀ s, SpotEvent.line s ∈ inp.events → s ≠ "[DONE]") :
    EndsOnce (spotiflacStream inp) := by
  rcases hm : inp.mkdirFail with _ | err
  · simp only [spotiflacStream, hm]
    rw [List.append_assoc]
    refine endsOnce_prepend (spotBanner_no_done inp.cfg)
      (endsOnce_prepend (spotLoop_no_done inp.events {} h) ?_)
    exact spotTail_endsOnce inp.cfg inp.flattenSubs inp.trans (spotLoop inp.events {}).2
  · simp only [spotiflacStream, hm]
    refine ⟨[dataChunk ("Could not create directory '" ++ spotOutputDirOf inp.cfg ++
      "': " ++ err), statusFailChunk], rfl, ?_⟩
    simp [done_eq_dataChunk_iff]

-- ── no-marker lemmas for the ytmusic stream ──

theorem ytLineStep_no_done (playlist : Bool) (l : String) (st : YStats)
    (h : l ≠ "[DONE]") : doneChunk ∉ (ytLineStep playlist l st).1 := by
  unfold ytLineStep
  repeat' split
  all_goals simp [done_eq_dataChunk_iff, h]

theorem ytLoop_no_done (playlist : Bool) (lines : List String) (st : YStats)
    (h : ∀ raw ∈ lines, pyRstrip ['\r', '\n'] raw ≠ "[DONE]") :
    doneChunk ∉ (ytLoop playlist lines st).1 := by
  induction lines generalizing st with
  | nil => simp [ytLoop]
  | cons raw rest ih =>
    have hr : pyRstrip ['\r', '\n'] raw ≠ "[DONE]" := h raw (List.mem_cons.mpr (Or.inl rfl))
    have hrest : ∀ r ∈ rest, pyRstrip ['\r', '\n'] r ≠ "[DONE]" :=
      fun r hrr => h r (List.mem_cons.mpr (Or.inr hrr))
    simp only [ytLoop]
    split
    · exact ih st hrest
    · intro hc
      rcases List.mem_append.mp (by simpa using hc) with hc | hc
      · exact ytLineStep_no_done playlist _ st hr hc
      · exact ih _ hrest hc

theorem ytBanner_no_done (c : YtCfg) : doneChunk ∉ ytBanner c := by
  unfold ytBanner
  repeat' split
  all_goals simp [done_eq_dataChunk_iff]

theorem ytSummary_no_done (c : YtCfg) (rc : Int) (st : YStats) :
    doneChunk ∉ ytSummary c rc st := by
  unfold ytSummary
  repeat' split
  all_goals
    (try (by_cases hp : ytIsPlaylistUrl c.url = true) <;>
      simp [hp, done_eq_dataChunk_iff, tmpl_yt_done_plain])

/-- Every `download_ytmusic_stream` run whose rstripped output lines never
equal the marker text ends with exactly one end-of-stream marker. -/
theorem ytStream_endsOnce (inp : YtInput)
    (h : ∀ raw ∈ inp.lines, pyRstrip ['\r', '\n'] raw ≠ "[DONE]") :
    EndsOnce (ytmusicStream inp) := by
  rcases hm : inp.run with msg | _ | ⟨k, msg⟩ | rc
  · simp only [ytmusicStream, hm]
    exact ⟨[dataChunk ("❌ Could not create directory: " ++ msg)], rfl,
      by simp [done_eq_dataChunk_iff]⟩
  · simp only [ytmusicStream, hm]
    refine endsOnce_prepend (ytBanner_no_done inp.cfg) ?_
    exact ⟨[dataChunk "❌ yt-dlp not found. Install: pip install -U yt-dlp"], rfl,
      by simp [done_eq_dataChunk_iff]⟩
  · simp only [ytmusicStream, hm]
    rw [List.append_assoc]
    have htk : ∀ raw ∈ inp.lines.take k, pyRstrip ['\r', '\n'] raw ≠ "[DONE]" :=
      fun raw hrr => h raw (List.take_subset k inp.lines hrr)
    refine endsOnce_prepend (ytBanner_no_done inp.cfg)
      (endsOnce_prepend (ytLoop_no_done _ _ {} htk) ?_)
    exact ⟨[dataChunk ("❌ Unexpected error: " ++ msg)], rfl,
      by simp [done_eq_dataChunk_iff]⟩
  · simp only [ytmusicStream, hm]
    rw [List.append_assoc, List.append_assoc, List.append_assoc]
    refine endsOnce_prepend (ytBanner_no_done inp.cfg)
      (endsOnce_prepend (ytLoop_no_done _ _ {} h) ?_)
    refine endsOnce_prepend (by simp [done_eq_dataChunk_iff]) ?_
    refine ⟨ytSummary inp.cfg rc (ytLoop (ytIsPlaylistUrl inp.cfg.url) inp.lines {}).2, rfl,
      ytSummary_no_done _ _ _⟩

-- ── C2 ──

/-- C2 counterexample: a provider output line that is literally `[DONE]`
is echoed verbatim by `_spotiflac_stream`'s pass-through, so the client
stream of that job carries the end-of-stream marker twice — the claim's
"exactly one end-of-stream marker" fails as stated. -/
theorem c2_counterexample :
    (streamWithLifecycle "job-1" (spotiflacStream c2Input) none).count doneChunk = 2 := by
  decide

/-- C2 amended: provided no raw provider output line is exactly the marker
text `[DONE]`, every download stream of the endpoint — the early-rejection
`error_stream`, and `stream_with_lifecycle` around either provider, on
every ending path (success, fatal error, stall timeout, cancellation, or
an internal exception at any point) — emits the end-of-stream marker
exactly once, as its last event. -/
theorem c2_amended :
    (∀ m : String,
      (errorStream m).count doneChunk = 1 ∧
      (errorStream m).getLast? = some doneChunk) ∧
    (∀ (inp : SpotInput) (j : String) (r : Option Nat),
      (∀ s, SpotEvent.line s ∈ inp.events → s ≠ "[DONE]") →
      (streamWithLifecycle j (spotiflacStream inp) r).count doneChunk = 1 ∧
      (streamWithLifecycle j (spotiflacStream inp) r).getLast? = some doneChunk) ∧
    (∀ (inp : YtInput) (j : String) (r : Option Nat),
      (∀ raw ∈ inp.lines, pyRstrip ['\r', '\n'] raw ≠ "[DONE]") →
      (streamWithLifecycle j (ytmusicStream inp) r).count doneChunk = 1 ∧
      (streamWithLifecycle j (ytmusicStream inp) r).getLast? = some doneChunk) := by
  refine ⟨fun m => ?_, fun inp j r h => ?_, fun inp j r h => ?_⟩
  · exact ⟨endsOnce_count (errorStream_endsOnce m), endsOnce_last (errorStream_endsOnce m)⟩
  · have he := endsOnce_wrapper j (spotiflacStream inp) r (spotStream_endsOnce inp h)
    exact ⟨endsOnce_count he, endsOnce_last he⟩
  · have he := endsOnce_wrapper j (ytmusicStream inp) r (ytStream_endsOnce inp h)
    exact ⟨endsOnce_count he, endsOnce_last he⟩

theorem c2_amended_witness :
    (∀ s, SpotEvent.line s ∈ c2SpotW.events → s ≠ "[DONE]") ∧
    (∀ raw ∈ c2YtW.lines, pyRstrip ['\r', '\n'] raw ≠ "[DONE]") ∧
    (streamWithLifecycle "j" (spotiflacStream c2SpotW) none).count doneChunk = 1 ∧
    (streamWithLifecycle "j" (spotiflacStream c2SpotW) none).getLast? = some doneChunk ∧
    (streamWithLifecycle "j" (ytmusicStream c2YtW) (some 2)).count doneChunk = 1 ∧
    (streamWithLifecycle "j" (ytmusicStream c2YtW) (some 2)).getLast? = some doneChunk := by
  have hs : ∀ s, SpotEvent.line s ∈ c2SpotW.events → s ≠ "[DONE]" := by
    intro s hsm
    simp [c2SpotW] at hsm
  have hy : ∀ raw ∈ c2YtW.lines, pyRstrip ['\r', '\n'] raw ≠ "[DONE]" := by
    intro raw hr
    simp [c2YtW] at hr
  obtain ⟨hc1, hc2⟩ := c2_amended.2.1 c2SpotW "j" none hs
  obtain ⟨hc3, hc4⟩ := c2_amended.2.2 c2YtW "j" (some 2) hy
  exact ⟨hs, hy, hc1, hc2, hc3, hc4⟩

-- ── status-event and stall lemmas ──

theorem isStatus_dataChunk (m : String) : isStatusChunk (dataChunk m) = false := rfl

theorem isStatus_metaTitle (v : String) : isStatusChunk (metaTitle v) = false := rfl

theorem isStatus_metaProgress (c : Int) (t : Nat) :
    isStatusChunk (metaProgress c t) = false := rfl

theorem isStatus_metaThumb (u : String) : isStatusChunk (metaThumb u) = false := rfl

theorem isStatus_metaJobId (i : String) : isStatusChunk (metaJobId i) = false := rfl

theorem isStatus_statusChunk (s : Bool) (d e k : Nat) :
    isStatusChunk (statusChunk s d e k) = true := rfl

theorem isStatus_statusFail : isStatusChunk statusFailChunk = true := rfl

theorem isStatus_done : isStatusChunk doneChunk = false := rfl

theorem spotLineStep_not_status (l : String) (st : SStats) :
    ∀ x ∈ (spotLineStep l st).1, isStatusChunk x = false := by
  unfold spotLineStep
  repeat' split
  all_goals simp [isStatus_dataChunk, isStatus_metaProgress]

theorem spotLoop_not_status (evs : List SpotEvent) (st : SStats) :
    ∀ x ∈ (spotLoop evs st).1, isStatusChunk x = false := by
  induction evs generalizing st with
  | nil => simp [spotLoop, isStatus_dataChunk]
  | cons ev rest ih =>
    match ev with
    | .cancelObserved => simp [spotLoop]
    | .sentinel => simp [spotLoop]
    | .stall => simp [spotLoop, isStatus_dataChunk]
    | .readErr m => simp [spotLoop, isStatus_dataChunk]
    | .line l =>
      intro x hx
      simp only [spotLoop] at hx
      rcases List.mem_append.mp (by simpa using hx) with hx | hx
      · exact spotLineStep_not_status l st x hx
      · exact ih _ x hx

theorem spotBanner_not_status (c : SpotCfg) :
    ∀ x ∈ spotBanner c, isStatusChunk x = false := by
  unfold spotBanner
  repeat' split
  all_goals simp [isStatus_dataChunk, isStatus_metaTitle]

theorem transFileChunks_all_data (f : TFile) :
    ∀ x ∈ (transFileChunks f).1, ∃ m, x = dataChunk m := by
  unfold transFileChunks
  cases f with
  | ok n o cov => cases cov <;> simp
  | ffmpegErr n o cd => simp
  | exc n o m => simp

theorem transLoop_all_data (fmtU : String) (i : Nat) (missing : Option Nat)
    (files : List TFile) : ∀ x ∈ (transLoop fmtU i missing files).1, ∃ m, x = dataChunk m := by
  induction files generalizing i with
  | nil => simp [transLoop]
  | cons f rest ih =>
    unfold transLoop
    split
    · simp
    · intro x hx
      rcases List.mem_append.mp (by simpa using hx) with hx | hx
      · exact transFileChunks_all_data f x hx
      · exact ih _ x hx

theorem transcodeChunks_all_data (d f : String) (inp : TransInput) :
    ∀ x ∈ transcodeChunks d f inp, ∃ m, x = dataChunk m := by
  unfold transcodeChunks
  intro x hx
  rcases List.mem_cons.mp hx with hx | hx
  · exact ⟨_, hx⟩
  split at hx
  · simp at hx
    exact ⟨_, hx⟩
  · rcases List.mem_cons.mp hx with hx | hx
    · exact ⟨_, hx⟩
    rcases List.mem_append.mp hx with hx | hx
    · exact transLoop_all_data _ _ _ _ x hx
    · split at hx
      · simp at hx
      · rcases List.mem_append.mp hx with hx | hx
        · simp at hx
          exact ⟨_, hx⟩
        · split at hx
          · simp at hx
            exact ⟨_, hx⟩
          · simp at hx

theorem spotTailPre_all_data (c : SpotCfg) (fl : List String) (tr : TransInput)
    (st : SStats) : ∀ x ∈ spotTailPre c fl tr st, ∃ m, x = dataChunk m := by
  unfold spotTailPre
  intro x hx
  rcases List.mem_cons.mp hx with hx | hx
  · exact ⟨_, hx⟩
  split at hx
  · simp at hx
    exact ⟨_, hx⟩
  split at hx
  · rcases List.mem_append.mp hx with hx | hx
    · rcases List.mem_append.mp hx with hx | hx
      · rcases List.mem_append.mp hx with hx | hx
        · rcases List.mem_append.mp hx with hx | hx
          · rcases List.mem_append.mp hx with hx | hx
            · split at hx
              · rcases List.mem_map.mp hx with ⟨y, -, hy⟩
                exact ⟨_, hy.symm⟩
              · simp at hx
            · simp at hx
              exact ⟨_, hx⟩
          · split at hx <;> simp at hx
            exact ⟨_, hx⟩
        · split at hx <;> simp at hx
          exact ⟨_, hx⟩
      · split at hx <;> simp at hx
        exact ⟨_, hx⟩
    · split at hx
      · rcases List.mem_cons.mp hx with hx | hx
        · exact ⟨_, hx⟩
        · exact transcodeChunks_all_data _ _ _ x hx
      · simp at hx
  split at hx
  · simp at hx
    exact ⟨_, hx⟩
  · simp at hx
    exact ⟨_, hx⟩

theorem spotTailPre_not_status (c : SpotCfg) (fl : List String) (tr : TransInput)
    (st : SStats) : ∀ x ∈ spotTailPre c fl tr st, isStatusChunk x = false := by
  intro x hx
  obtain ⟨m, rfl⟩ := spotTailPre_all_data c fl tr st x hx
  exact isStatus_dataChunk m

/-- Every `_spotiflac_stream` run emits exactly one structured status
event. -/
theorem spotStream_status_count (inp : SpotInput) :
    (spotiflacStream inp).countP (fun c => isStatusChunk c) = 1 := by
  rcases hm : inp.mkdirFail with _ | err
  · simp only [spotiflacStream, hm]
    rw [List.countP_append, List.countP_append]
    rw [List.countP_eq_zero.mpr (fun a ha => by
      simp [spotBanner_not_status inp.cfg a ha])]
    rw [List.countP_eq_zero.mpr (fun a ha => by
      simp [spotLoop_not_status inp.events {} a ha])]
    unfold spotTail
    rw [List.countP_append]
    rw [List.countP_eq_zero.mpr (fun a ha => by
      simp [spotTailPre_not_status inp.cfg inp.flattenSubs inp.trans _ a ha])]
    simp [List.countP_cons, isStatus_statusChunk, isStatus_done]
  · simp only [spotiflacStream, hm]
    simp [List.countP_cons, isStatus_statusFail, isStatus_done, isStatus_dataChunk]

theorem spotLoop_stall (evs : List SpotEvent) (st : SStats) (h : spotStalls evs = true) :
    dataChunk "No output from SpotiFLAC for 5 minutes — it may be hung." ∈ (spotLoop evs st).1 ∧
    (spotLoop evs st).2.fatal = true := by
  induction evs generalizing st with
  | nil => simp [spotLoop]
  | cons ev rest ih =>
    match ev with
    | .cancelObserved => simp [spotStalls] at h
    | .sentinel => simp [spotStalls] at h
    | .stall => simp [spotLoop]
    | .readErr m => simp [spotStalls] at h
    | .line l =>
      have h' : spotStalls rest = true := by simpa [spotStalls] using h
      refine ⟨?_, ?_⟩
      · simp only [spotLoop]
        exact List.mem_append.mpr (Or.inr (ih _ h').1)
      · simp only [spotLoop]
        exact (ih _ h').2

theorem spotTail_mem_status (c : SpotCfg) (fl : List String) (tr : TransInput)
    (st : SStats) :
    statusChunk (successFlag st.fatal st.cancelled st.errors st.downloaded st.totalCount)
      st.downloaded st.errors st.skipped ∈ spotTail c fl tr st := by
  unfold spotTail
  simp

theorem spotStream_last (inp : SpotInput) :
    (spotiflacStream inp).getLast? = some doneChunk := by
  rcases hm : inp.mkdirFail with _ | err
  · simp only [spotiflacStream, hm]
    unfold spotTail
    rw [List.getLast?_append_of_ne_nil, List.getLast?_append_of_ne_nil] <;> simp
  · simp only [spotiflacStream, hm]
    rfl

-- ── C9 ──

/-- The stall behaviour of the task-backed session `_spotiflac_stream`:
when no output arrives while the job is alive (the 300-second `wait_for`
timeout, constant `spotStallTimeoutSeconds`), the session reports the
fatal stall, marks the run fatal, emits a terminal status with
`success = false` and the end-of-stream marker as the last event, without
consuming anything further from the adapter; the abandoned worker is
awaited for at most `spotThreadJoinTimeoutSeconds` (30 s) before its result
is discarded. -/
theorem spotSession_stall_behaviour (inp : SpotInput) (h1 : inp.mkdirFail = none)
    (h2 : spotStalls inp.events = true) :
    spotStallTimeoutSeconds = 300 ∧ spotThreadJoinTimeoutSeconds = 30 ∧
    dataChunk "No output from SpotiFLAC for 5 minutes — it may be hung." ∈
      spotiflacStream inp ∧
    (spotFinalStats inp).fatal = true ∧
    statusChunk false (spotFinalStats inp).downloaded (spotFinalStats inp).errors
      (spotFinalStats inp).skipped ∈ spotiflacStream inp ∧
    (spotiflacStream inp).getLast? = some doneChunk := by
  have hmem := spotLoop_stall inp.events {} h2
  have hf : (spotFinalStats inp).fatal = true := hmem.2
  have hsf : successFlag (spotFinalStats inp).fatal (spotFinalStats inp).cancelled
      (spotFinalStats inp).errors (spotFinalStats inp).downloaded
      (spotFinalStats inp).totalCount = false := by
    simp [successFlag, hf]
  refine ⟨rfl, rfl, ?_, hf, ?_, spotStream_last inp⟩
  · simp only [spotiflacStream, h1]
    exact List.mem_append.mpr (Or.inl (List.mem_append.mpr (Or.inr hmem.1)))
  · have hm := spotTail_mem_status inp.cfg inp.flattenSubs inp.trans (spotFinalStats inp)
    rw [hsf] at hm
    simp only [spotiflacStream, h1]
    exact List.mem_append.mpr (Or.inr hm)

/-- Every non-empty rstripped line is echoed by `ytLineStep`: all branches
of the classifier chain of `download_ytmusic_stream` fall through to the
pass-through `yield f"data: {line}"` (ytmusic.py line 150). -/
theorem ytLineStep_echoes (playlist : Bool) (l : String) (st : YStats) :
    dataChunk l ∈ (ytLineStep playlist l st).1 := by
  unfold ytLineStep
  repeat' split
  all_goals simp

/-- The read loop of `download_ytmusic_stream` consumes and echoes every
arriving non-empty line unconditionally: unlike the task-backed consumer
loop, it contains no timeout path that could stop it early, because the
`async for raw_line in process.stdout` at ytmusic.py line 107 has no
`wait_for` around it. -/
theorem ytLoop_echoes (playlist : Bool) (lines : List String) (st : YStats) :
    ∀ raw ∈ lines, pyRstrip ['\r', '\n'] raw ≠ "" →
      dataChunk (pyRstrip ['\r', '\n'] raw) ∈ (ytLoop playlist lines st).1 := by
  induction lines generalizing st with
  | nil => intro raw h; cases h
  | cons r rest ih =>
    intro raw hm hne
    simp only [ytLoop]
    rcases List.mem_cons.mp hm with hraw | hm
    · subst hraw
      split
      · next he => exact absurd (by simpa using he) hne
      · exact List.mem_append.mpr (Or.inl (ytLineStep_echoes playlist _ st))
    · split
      · exact ih st raw hm hne
      · exact List.mem_append.mpr (Or.inr (ih _ raw hm hne))

/-- C9 counterexample: the claim quantifies over every provider session,
but only `_spotiflac_stream` has the 300-second stall timeout; the read
loop of `download_ytmusic_stream` (ytmusic.py line 107) waits on process
stdout with no timeout at all.  While a silent-but-alive yt-dlp run is in
the >300 s window the session emits nothing (such a hang is exactly the
code having no stall branch to take), and even over the whole silent
session — here ending only because the process itself finally exits — no
chunk ever reports a stall (no text mentioning a hang) and no structured
status event exists, refuting "for every provider session … reports a
fatal stall … never hangs indefinitely" on the process-backed provider. -/
theorem c9_counterexample :
    (∀ ch ∈ ytmusicStream c9YtSilent, pyContains (pyLower ch) "hung" = false) ∧
    (∀ ch ∈ ytmusicStream c9YtSilent, isStatusChunk ch = false) := by
  exact ⟨by decide, by decide⟩

/-- C9 amended: the stall handling is specific to the task-backed
provider.  For every Spotify session, no output for 300 seconds
(`spotStallTimeoutSeconds`) with the job alive yields the fatal stall
report, a `success = false` terminal status and the end-of-stream marker
as last event, with nothing further consumed from the adapter and the
abandoned worker awaited at most `spotThreadJoinTimeoutSeconds` (30 s).
The YouTube Music session has no stall timeout: its read loop consumes and
echoes every line whenever it arrives — there is no timeout path that
could yield a stall report, so a silent-but-alive yt-dlp session hangs
instead of stalling out. -/
theorem c9_amended :
    (∀ inp : SpotInput, inp.mkdirFail = none → spotStalls inp.events = true →
      spotStallTimeoutSeconds = 300 ∧ spotThreadJoinTimeoutSeconds = 30 ∧
      dataChunk "No output from SpotiFLAC for 5 minutes — it may be hung." ∈
        spotiflacStream inp ∧
      (spotFinalStats inp).fatal = true ∧
      statusChunk false (spotFinalStats inp).downloaded (spotFinalStats inp).errors
        (spotFinalStats inp).skipped ∈ spotiflacStream inp ∧
      (spotiflacStream inp).getLast? = some doneChunk) ∧
    (∀ (playlist : Bool) (lines : List String) (st : YStats),
      ∀ raw ∈ lines, pyRstrip ['\r', '\n'] raw ≠ "" →
        dataChunk (pyRstrip ['\r', '\n'] raw) ∈ (ytLoop playlist lines st).1) :=
  ⟨fun inp h1 h2 => spotSession_stall_behaviour inp h1 h2,
   fun playlist lines st => ytLoop_echoes playlist lines st⟩

theorem c9_amended_witness :
    c9W.mkdirFail = none ∧ spotStalls c9W.events = true ∧
    "line1" ∈ ["line1"] ∧ pyRstrip ['\r', '\n'] "line1" ≠ "" ∧
    (spotStallTimeoutSeconds = 300 ∧ spotThreadJoinTimeoutSeconds = 30 ∧
     dataChunk "No output from SpotiFLAC for 5 minutes — it may be hung." ∈
       spotiflacStream c9W ∧
     (spotFinalStats c9W).fatal = true ∧
     statusChunk false (spotFinalStats c9W).downloaded (spotFinalStats c9W).errors
       (spotFinalStats c9W).skipped ∈ spotiflacStream c9W ∧
     (spotiflacStream c9W).getLast? = some doneChunk) ∧
    dataChunk (pyRstrip ['\r', '\n'] "line1") ∈ (ytLoop false ["line1"] {}).1 :=
  ⟨rfl, rfl, by decide, by decide,
   c9_amended.1 c9W rfl rfl,
   c9_amended.2 false ["line1"] {} "line1" (by decide) (by decide)⟩

-- ── C6 ──

/-- C6 counterexample: a cancelled YouTube Music job (terminated by the
cancel endpoint, so its process exits with -15 and its stdout closes) has
an attached stream whose chunks never even mention cancellation — it
reports the yt-dlp exit code instead, refuting "every cancelled job's
stream reports a final terminal status of cancelled". -/
theorem c6_counterexample :
    (∀ ch ∈ ytmusicStream c6YtCancelled, pyContains (pyLower ch) "cancel" = false) ∧
    dataChunk "❌ yt-dlp exited with code -15." ∈ ytmusicStream c6YtCancelled := by
  exact ⟨by decide, by decide⟩

/-- C6 amended: a cancelled Spotify (task-backed) job always reports
`Download cancelled.` and the single structured terminal status of its
stream carries `success = false` (no second terminal status exists); a
cancelled YouTube Music (process-backed) job instead ends its stream with
the yt-dlp exit-code line — it never reports "cancelled". -/
theorem c6_amended :
    (∀ inp : SpotInput, inp.mkdirFail = none → (spotFinalStats inp).cancelled = true →
      dataChunk "Download cancelled." ∈ spotiflacStream inp ∧
      statusChunk false (spotFinalStats inp).downloaded (spotFinalStats inp).errors
        (spotFinalStats inp).skipped ∈ spotiflacStream inp ∧
      (spotiflacStream inp).countP (fun c => isStatusChunk c) = 1) ∧
    (∀ (c : YtCfg) (lines : List String) (rc : Int), ¬(rc = 0 ∨ rc = 1) →
      ytmusicStream ⟨c, .complete rc, lines⟩ =
        ytBanner c ++ (ytLoop (ytIsPlaylistUrl c.url) lines {}).1 ++
          [dataChunk "", dataChunk ("❌ yt-dlp exited with code " ++ intStr rc ++ "."),
           doneChunk]) := by
  constructor
  · intro inp h1 hcanc
    have hsf : successFlag (spotFinalStats inp).fatal (spotFinalStats inp).cancelled
        (spotFinalStats inp).errors (spotFinalStats inp).downloaded
        (spotFinalStats inp).totalCount = false := by
      simp [successFlag, hcanc]
    refine ⟨?_, ?_, spotStream_status_count inp⟩
    · simp only [spotiflacStream, h1]
      refine List.mem_append.mpr (Or.inr ?_)
      unfold spotTail spotTailPre
      rw [show spotFinalStats inp = (spotLoop inp.events {}).2 from rfl] at hcanc
      simp [hcanc]
    · have hm := spotTail_mem_status inp.cfg inp.flattenSubs inp.trans (spotFinalStats inp)
      rw [hsf] at hm
      simp only [spotiflacStream, h1]
      exact List.mem_append.mpr (Or.inr hm)
  · intro c lines rc hrc
    have hb : (rc == 0 || rc == 1) = false := by
      rcases Decidable.em (rc = 0) with h0 | h0
      · exact absurd (Or.inl h0) hrc
      rcases Decidable.em (rc = 1) with h1 | h1
      · exact absurd (Or.inr h1) hrc
      simp [h0, h1]
    simp only [ytmusicStream, ytSummary, hb]
    simp

theorem c6_amended_witness :
    c6SpotW.mkdirFail = none ∧ (spotFinalStats c6SpotW).cancelled = true ∧
    ¬((-15 : Int) = 0 ∨ (-15 : Int) = 1) ∧
    (dataChunk "Download cancelled." ∈ spotiflacStream c6SpotW ∧
     statusChunk false (spotFinalStats c6SpotW).downloaded (spotFinalStats c6SpotW).errors
       (spotFinalStats c6SpotW).skipped ∈ spotiflacStream c6SpotW ∧
     (spotiflacStream c6SpotW).countP (fun c => isStatusChunk c) = 1) ∧
    ytmusicStream ⟨c6YtCancelled.cfg, .complete (-15), []⟩ =
      ytBanner c6YtCancelled.cfg ++
        (ytLoop (ytIsPlaylistUrl c6YtCancelled.cfg.url) [] {}).1 ++
        [dataChunk "", dataChunk ("❌ yt-dlp exited with code " ++ intStr (-15) ++ "."),
         doneChunk] :=
  ⟨rfl, rfl, by decide,
   c6_amended.1 c6SpotW rfl rfl,
   c6_amended.2 c6YtCancelled.cfg [] (-15) (by decide)⟩

-- ── scheduler invariant machinery (C8) ──

theorem schedJobId_inj {a b : String} (h : schedJobId a = schedJobId b) : a = b := by
  have hd := congrArg String.data h
  simp only [schedJobId, sdata_append] at hd
  exact stringDataInj (List.append_cancel_left hd)

theorem list_count_nodup {α : Type} [DecidableEq α] {l : List α} {a : α}
    (h : l.Nodup) (hm : a ∈ l) : l.count a = 1 := by
  have h1 : l.count a ≤ 1 := (List.nodup_iff_count_le_one.mp h) a
  have h2 : 0 < l.count a := List.count_pos_iff.mpr hm
  omega

theorem mem_of_dictLookup {α : Type} {k : String} {v : α} :
    ∀ {l : List (String × α)}, dictLookup k l = some v → (k, v) ∈ l := by
  intro l
  induction l with
  | nil => intro h; cases h
  | cons hd tl ih =>
    intro h
    obtain ⟨k', v'⟩ := hd
    by_cases hk : k' = k
    · subst hk
      simp [dictLookup] at h
      simp [h]
    · simp [dictLookup, hk] at h
      exact List.mem_cons.mpr (Or.inr (ih h))

theorem dictLookup_of_mem {α : Type} {l : List (String × α)}
    (hnd : (dictKeys l).Nodup) {k : String} {v : α} (hm : (k, v) ∈ l) :
    dictLookup k l = some v := by
  induction l with
  | nil => cases hm
  | cons hd tl ih =>
    obtain ⟨k', v'⟩ := hd
    rw [dictKeys_cons] at hnd
    rcases List.mem_cons.mp hm with hm | hm
    · injection hm with h1 h2
      subst h1; subst h2
      simp [dictLookup]
    · have hk : ¬ k' = k := by
        intro hh
        subst hh
        exact (List.nodup_cons.mp hnd).1
          (List.mem_map.mpr ⟨(k', v), hm, rfl⟩)
      simp [dictLookup, hk]
      exact ih (List.nodup_cons.mp hnd).2 hm

theorem mem_dictInsert {α : Type} {kp : String × α} {k : String} {v : α} :
    ∀ {l : List (String × α)}, kp ∈ dictInsert k v l → kp = (k, v) ∨ kp ∈ l := by
  intro l
  induction l with
  | nil => intro h; simpa [dictInsert] using h
  | cons hd tl ih =>
    intro h
    obtain ⟨k', v'⟩ := hd
    by_cases hk : k' = k
    · simp only [dictInsert, if_pos hk] at h
      rcases List.mem_cons.mp h with h | h
      · exact Or.inl h
      · exact Or.inr (List.mem_cons.mpr (Or.inr h))
    · simp only [dictInsert, if_neg hk] at h
      rcases List.mem_cons.mp h with h | h
      · exact Or.inr (List.mem_cons.mpr (Or.inl h))
      · rcases ih h with h | h
        · exact Or.inl h
        · exact Or.inr (List.mem_cons.mpr (Or.inr h))

theorem dictRemove_sublist {α : Type} (k : String) :
    ∀ (l : List (String × α)), (dictRemove k l).Sublist l := by
  intro l
  induction l with
  | nil => simp [dictRemove]
  | cons hd tl ih =>
    obtain ⟨k', v'⟩ := hd
    by_cases hk : k' = k
    · simp only [dictRemove, if_pos hk]
      exact List.sublist_cons_self _ _
    · simp only [dictRemove, if_neg hk]
      exact List.Sublist.cons₂ _ ih

theorem WFStore_insert {pls : List (String × Playlist)} (h : WFStore pls)
    {k : String} {p : Playlist} (hid : p.id = k) : WFStore (dictInsert k p pls) := by
  refine ⟨nodup_keys_insert k p pls h.1, ?_⟩
  intro kp hm
  rcases mem_dictInsert hm with hm | hm
  · rw [hm]; exact hid
  · exact h.2 kp hm

theorem WFStore_remove {pls : List (String × Playlist)} (h : WFStore pls)
    (k : String) : WFStore (dictRemove k pls) := by
  refine ⟨?_, ?_⟩
  · exact ((dictRemove_sublist k pls).map Prod.fst).nodup h.1
  · intro kp hm
    exact h.2 kp ((dictRemove_sublist k pls).subset hm)

theorem mem_addJobReplace (jid j : String) (trs : List String) :
    j ∈ addJobReplace jid trs ↔ j = jid ∨ j ∈ trs := by
  unfold addJobReplace
  split
  · constructor
    · exact fun hm => Or.inr hm
    · intro hm
      rcases hm with hm | hm
      · subst hm
        next hc => exact (by simpa using hc : j ∈ trs)
      · exact hm
  · simp [List.mem_cons]

theorem nodup_addJobReplace (jid : String) (trs : List String) (h : trs.Nodup) :
    (addJobReplace jid trs).Nodup := by
  unfold addJobReplace
  split
  · exact h
  · next hc =>
    refine List.nodup_cons.mpr ⟨?_, h⟩
    intro hm
    exact hc (by simpa using hm)

theorem mem_rescheduleAll (pls : List (String × Playlist)) (trs : List String)
    (j : String) :
    j ∈ rescheduleAll pls trs ↔
      j ∈ trs ∨ ∃ kp ∈ pls, kp.2.enabled = true ∧ j = schedJobId kp.2.id := by
  induction pls generalizing trs with
  | nil => simp [rescheduleAll]
  | cons kp rest ih =>
    simp only [rescheduleAll, List.foldl_cons] at ih ⊢
    by_cases he : kp.2.enabled = true
    · rw [if_pos he, ih]
      unfold schedulePlaylist
      rw [mem_addJobReplace]
      constructor
      · rintro ((hj | hj) | ⟨q, hq, he2, hj⟩)
        · exact Or.inr ⟨kp, List.mem_cons.mpr (Or.inl rfl), he, hj⟩
        · exact Or.inl hj
        · exact Or.inr ⟨q, List.mem_cons.mpr (Or.inr hq), he2, hj⟩
      · rintro (hj | ⟨q, hq, he2, hj⟩)
        · exact Or.inl (Or.inr hj)
        · rcases List.mem_cons.mp hq with hq | hq
          · subst hq
            exact Or.inl (Or.inl hj)
          · exact Or.inr ⟨q, hq, he2, hj⟩
    · rw [if_neg he, ih]
      constructor
      · rintro (hj | ⟨q, hq, he2, hj⟩)
        · exact Or.inl hj
        · exact Or.inr ⟨q, List.mem_cons.mpr (Or.inr hq), he2, hj⟩
      · rintro (hj | ⟨q, hq, he2, hj⟩)
        · exact Or.inl hj
        · rcases List.mem_cons.mp hq with hq | hq
          · subst hq
            exact absurd he2 he
          · exact Or.inr ⟨q, hq, he2, hj⟩

theorem nodup_rescheduleAll (pls : List (String × Playlist)) (trs : List String)
    (h : trs.Nodup) : (rescheduleAll pls trs).Nodup := by
  induction pls generalizing trs with
  | nil => exact h
  | cons kp rest ih =>
    simp only [rescheduleAll, List.foldl_cons]
    split
    · exact ih _ (nodup_addJobReplace _ _ h)
    · exact ih _ h

theorem applyUpd_id (d : UpdData) (p : Playlist) : (applyUpd d p).id = p.id := rfl

theorem buildConfig_id (g : String) (p : Playlist) : ((buildConfig g p).2).id = p.id := by
  unfold buildConfig
  repeat' split
  all_goals rfl

theorem buildConfig_enabled (g : String) (p : Playlist) :
    ((buildConfig g p).2).enabled = p.enabled := by
  unfold buildConfig
  repeat' split
  all_goals rfl

theorem updateSyncResult_enabled (now pid status log : String)
    (pls : List (String × Playlist)) (q : String) :
    (dictLookup q (updateSyncResult now pid status log pls)).map Playlist.enabled =
      (dictLookup q pls).map Playlist.enabled := by
  unfold updateSyncResult
  rcases hl : dictLookup pid pls with _ | p
  · rfl
  · by_cases hq : q = pid
    · subst hq
      rw [dictLookup_insert_self, hl]
      rfl
    · rw [dictLookup_insert_ne _ _ _ _ hq]

theorem WFStore_updateSyncResult (now pid status log : String)
    {pls : List (String × Playlist)} (h : WFStore pls) :
    WFStore (updateSyncResult now pid status log pls) := by
  unfold updateSyncResult
  rcases hl : dictLookup pid pls with _ | p
  · exact h
  · exact WFStore_insert h (h.2 _ (mem_of_dictLookup hl))

theorem runSyncJobEffect_enabled (g now pid : String) (chunks : List String)
    (pls : List (String × Playlist)) (q : String) :
    (dictLookup q (runSyncJobEffect g now pid chunks pls)).map Playlist.enabled =
      (dictLookup q pls).map Playlist.enabled := by
  unfold runSyncJobEffect
  rcases hl : dictLookup pid pls with _ | p
  · rfl
  · rw [updateSyncResult_enabled]
    by_cases hq : q = pid
    · subst hq
      rw [dictLookup_insert_self, hl, Option.map_some', Option.map_some',
        buildConfig_enabled]
    · rw [dictLookup_insert_ne _ _ _ _ hq]

theorem WFStore_runSyncJobEffect (g now pid : String) (chunks : List String)
    {pls : List (String × Playlist)} (h : WFStore pls) :
    WFStore (runSyncJobEffect g now pid chunks pls) := by
  unfold runSyncJobEffect
  rcases hl : dictLookup pid pls with _ | p
  · exact h
  · refine WFStore_updateSyncResult _ _ _ _ (WFStore_insert h ?_)
    rw [buildConfig_id]
    exact h.2 _ (mem_of_dictLookup hl)

theorem trigInv_congr {pls pls' : List (String × Playlist)} {trs : List String}
    (h : ∀ q, (dictLookup q pls').map Playlist.enabled =
      (dictLookup q pls).map Playlist.enabled)
    (hi : TrigInv ⟨pls, trs⟩) : TrigInv ⟨pls', trs⟩ := by
  refine ⟨hi.1, fun j => ?_⟩
  rw [hi.2 j]
  constructor
  · rintro ⟨pid, p, hl, he, hj⟩
    have := h pid
    rw [hl, Option.map_some'] at this
    rcases ho : dictLookup pid pls' with _ | p'
    · rw [ho] at this; cases this
    · rw [ho, Option.map_some'] at this
      injection this with hv
      exact ⟨pid, p', ho, by rw [hv, he], hj⟩
  · rintro ⟨pid, p', hl, he, hj⟩
    have := h pid
    rw [hl, Option.map_some'] at this
    rcases ho : dictLookup pid pls with _ | p
    · rw [ho] at this; cases this
    · rw [ho, Option.map_some'] at this
      injection this with hv
      exact ⟨pid, p, ho, by rw [← hv, he], hj⟩

theorem mkPlaylist_id (pid : String) (d : AddData) : (mkPlaylist pid d).id = pid := rfl

theorem addPlaylistOp_eq (pid : String) (d : AddData) (st : SyncState) :
    addPlaylistOp pid d st =
      { playlists := dictInsert pid (mkPlaylist pid d) st.playlists,
        triggers := if (mkPlaylist pid d).enabled then
            addJobReplace (schedJobId pid) st.triggers
          else st.triggers } := rfl

theorem updatePlaylistOp_none {st : SyncState} {pid : String}
    (hl : dictLookup pid st.playlists = none) (d : UpdData) :
    updatePlaylistOp pid d st = st := by
  unfold updatePlaylistOp
  rw [hl]

theorem updatePlaylistOp_some {st : SyncState} {pid : String} {p : Playlist}
    (hl : dictLookup pid st.playlists = some p) (d : UpdData) :
    updatePlaylistOp pid d st =
      { playlists := dictInsert pid (applyUpd d p) st.playlists,
        triggers := if (applyUpd d p).enabled then
            addJobReplace (schedJobId (applyUpd d p).id)
              (unschedulePlaylist pid st.triggers)
          else unschedulePlaylist pid st.triggers } := by
  unfold updatePlaylistOp schedulePlaylist
  rw [hl]

theorem deletePlaylistOp_none {st : SyncState} {pid : String}
    (hl : dictLookup pid st.playlists = none) : deletePlaylistOp pid st = st := by
  unfold deletePlaylistOp
  rw [hl]

theorem deletePlaylistOp_some {st : SyncState} {pid : String} {p : Playlist}
    (hl : dictLookup pid st.playlists = some p) :
    deletePlaylistOp pid st =
      { playlists := dictRemove pid st.playlists,
        triggers := unschedulePlaylist pid st.triggers } := by
  unfold deletePlaylistOp
  rw [hl]

/-- Every reachable sync-manager state is well formed and satisfies the
trigger/store coupling. -/
theorem sreach_inv (st : SyncState) (h : SReach st) : WFState st ∧ TrigInv st := by
  induction h with
  | start pls hwf =>
    refine ⟨hwf, nodup_rescheduleAll pls [] List.nodup_nil, fun j => ?_⟩
    show j ∈ rescheduleAll pls [] ↔ _
    rw [mem_rescheduleAll]
    constructor
    · rintro (hj | ⟨kp, hkp, he, hj⟩)
      · cases hj
      · refine ⟨kp.1, kp.2, dictLookup_of_mem hwf.1 hkp, he, ?_⟩
        rw [hj, hwf.2 kp hkp]
    · rintro ⟨q, p, hl, he, hj⟩
      refine Or.inr ⟨(q, p), mem_of_dictLookup hl, he, ?_⟩
      rw [hj, hwf.2 (q, p) (mem_of_dictLookup hl)]
  | add st pid d h hf ih =>
    obtain ⟨hwf, hnd, hiff⟩ := ih
    rw [addPlaylistOp_eq]
    refine ⟨WFStore_insert hwf rfl, ?_, ?_⟩
    · show (if (mkPlaylist pid d).enabled = true then
          addJobReplace (schedJobId pid) st.triggers else st.triggers).Nodup
      split
      · exact nodup_addJobReplace _ _ hnd
      · exact hnd
    · intro j
      show j ∈ (if (mkPlaylist pid d).enabled = true then
          addJobReplace (schedJobId pid) st.triggers else st.triggers) ↔
        ∃ q pq, dictLookup q (dictInsert pid (mkPlaylist pid d) st.playlists) = some pq ∧
          pq.enabled = true ∧ j = schedJobId q
      by_cases he : (mkPlaylist pid d).enabled = true
      · rw [if_pos he, mem_addJobReplace]
        constructor
        · rintro (hj | hj)
          · exact ⟨pid, mkPlaylist pid d, dictLookup_insert_self _ _ _, he, hj⟩
          · obtain ⟨q, pq, hl, he2, hj2⟩ := (hiff j).mp hj
            have hq : q ≠ pid := fun hh => by rw [hh, hf] at hl; cases hl
            exact ⟨q, pq, by rw [dictLookup_insert_ne _ _ _ _ hq]; exact hl, he2, hj2⟩
        · rintro ⟨q, pq, hl, he2, hj2⟩
          by_cases hq : q = pid
          · subst hq
            exact Or.inl hj2
          · rw [dictLookup_insert_ne _ _ _ _ hq] at hl
            exact Or.inr ((hiff j).mpr ⟨q, pq, hl, he2, hj2⟩)
      · rw [if_neg he]
        constructor
        · intro hj
          obtain ⟨q, pq, hl, he2, hj2⟩ := (hiff j).mp hj
          have hq : q ≠ pid := fun hh => by rw [hh, hf] at hl; cases hl
          exact ⟨q, pq, by rw [dictLookup_insert_ne _ _ _ _ hq]; exact hl, he2, hj2⟩
        · rintro ⟨q, pq, hl, he2, hj2⟩
          by_cases hq : q = pid
          · subst hq
            rw [dictLookup_insert_self] at hl
            injection hl with hl
            rw [← hl] at he2
            exact absurd he2 he
          · rw [dictLookup_insert_ne _ _ _ _ hq] at hl
            exact (hiff j).mpr ⟨q, pq, hl, he2, hj2⟩
  | update st pid d h ih =>
    obtain ⟨hwf, hnd, hiff⟩ := ih
    rcases hl : dictLookup pid st.playlists with _ | p
    · rw [updatePlaylistOp_none hl]
      exact ⟨hwf, hnd, hiff⟩
    · have hpid : (applyUpd d p).id = pid := by
        rw [applyUpd_id]
        exact hwf.2 _ (mem_of_dictLookup hl)
      rw [updatePlaylistOp_some hl, hpid]
      have herase : ∀ x, x ∈ unschedulePlaylist pid st.triggers ↔
          x ≠ schedJobId pid ∧ x ∈ st.triggers := fun x => hnd.mem_erase_iff
      refine ⟨WFStore_insert hwf hpid, ?_, ?_⟩
      · show (if (applyUpd d p).enabled = true then
            addJobReplace (schedJobId pid) (unschedulePlaylist pid st.triggers)
          else unschedulePlaylist pid st.triggers).Nodup
        split
        · exact nodup_addJobReplace _ _ (hnd.erase _)
        · exact hnd.erase _
      · intro j
        show j ∈ (if (applyUpd d p).enabled = true then
            addJobReplace (schedJobId pid) (unschedulePlaylist pid st.triggers)
          else unschedulePlaylist pid st.triggers) ↔
          ∃ q pq, dictLookup q (dictInsert pid (applyUpd d p) st.playlists) = some pq ∧
            pq.enabled = true ∧ j = schedJobId q
        by_cases he : (applyUpd d p).enabled = true
        · rw [if_pos he, mem_addJobReplace]
          constructor
          · rintro (hj | hj)
            · exact ⟨pid, applyUpd d p, dictLookup_insert_self _ _ _, he, hj⟩
            · obtain ⟨hne, hj2⟩ := (herase j).mp hj
              obtain ⟨q, pq, hl2, he2, hj3⟩ := (hiff j).mp hj2
              have hq : q ≠ pid := fun hh => hne (by rw [hj3, hh])
              exact ⟨q, pq, by rw [dictLookup_insert_ne _ _ _ _ hq]; exact hl2, he2, hj3⟩
          · rintro ⟨q, pq, hl2, he2, hj2⟩
            by_cases hq : q = pid
            · subst hq
              exact Or.inl hj2
            · rw [dictLookup_insert_ne _ _ _ _ hq] at hl2
              refine Or.inr ((herase j).mpr ⟨?_, (hiff j).mpr ⟨q, pq, hl2, he2, hj2⟩⟩)
              rw [hj2]
              exact fun hh => hq (schedJobId_inj hh)
        · rw [if_neg he]
          constructor
          · intro hj
            obtain ⟨hne, hj2⟩ := (herase j).mp hj
            obtain ⟨q, pq, hl2, he2, hj3⟩ := (hiff j).mp hj2
            have hq : q ≠ pid := fun hh => hne (by rw [hj3, hh])
            exact ⟨q, pq, by rw [dictLookup_insert_ne _ _ _ _ hq]; exact hl2, he2, hj3⟩
          · rintro ⟨q, pq, hl2, he2, hj2⟩
            by_cases hq : q = pid
            · subst hq
              rw [dictLookup_insert_self] at hl2
              injection hl2 with hl2
              rw [← hl2] at he2
              exact absurd he2 he
            · rw [dictLookup_insert_ne _ _ _ _ hq] at hl2
              refine (herase j).mpr ⟨?_, (hiff j).mpr ⟨q, pq, hl2, he2, hj2⟩⟩
              rw [hj2]
              exact fun hh => hq (schedJobId_inj hh)
  | del st pid h ih =>
    obtain ⟨hwf, hnd, hiff⟩ := ih
    rcases hl : dictLookup pid st.playlists with _ | p
    · rw [deletePlaylistOp_none hl]
      exact ⟨hwf, hnd, hiff⟩
    · rw [deletePlaylistOp_some hl]
      have herase : ∀ x, x ∈ unschedulePlaylist pid st.triggers ↔
          x ≠ schedJobId pid ∧ x ∈ st.triggers := fun x => hnd.mem_erase_iff
      refine ⟨WFStore_remove hwf pid, hnd.erase _, ?_⟩
      intro j
      show j ∈ unschedulePlaylist pid st.triggers ↔
        ∃ q pq, dictLookup q (dictRemove pid st.playlists) = some pq ∧
          pq.enabled = true ∧ j = schedJobId q
      rw [herase]
      constructor
      · rintro ⟨hne, hj⟩
        obtain ⟨q, pq, hl2, he2, hj2⟩ := (hiff j).mp hj
        have hq : q ≠ pid := fun hh => hne (by rw [hj2, hh])
        exact ⟨q, pq, by rw [dictLookup_remove_ne _ _ _ hq]; exact hl2, he2, hj2⟩
      · rintro ⟨q, pq, hl2, he2, hj2⟩
        by_cases hq : q = pid
        · subst hq
          rw [dictLookup_remove_self _ _ hwf.1] at hl2
          cases hl2
        · rw [dictLookup_remove_ne _ _ _ hq] at hl2
          refine ⟨?_, (hiff j).mpr ⟨q, pq, hl2, he2, hj2⟩⟩
          rw [hj2]
          exact fun hh => hq (schedJobId_inj hh)
  | record st now pid status log h ih =>
    obtain ⟨hwf, hinv⟩ := ih
    exact ⟨WFStore_updateSyncResult now pid status log hwf,
      trigInv_congr (updateSyncResult_enabled now pid status log st.playlists) hinv⟩
  | run st g now pid chunks h ih =>
    obtain ⟨hwf, hinv⟩ := ih
    exact ⟨WFStore_runSyncJobEffect g now pid chunks hwf,
      trigInv_congr (runSyncJobEffect_enabled g now pid chunks st.playlists) hinv⟩

-- ── C8 ──

/-- C8: in every reachable sync-manager state — startup reconciliation of a
well-formed store followed by any interleaving of add (fresh id), update,
delete, and run-result writes, which covers arbitrary enable/disable
cycles — a stored definition with `enabled = false` has no trigger and an
enabled one has exactly one trigger. -/
theorem c8_trigger_invariant (st : SyncState) (h : SReach st) :
    ∀ pid p, dictLookup pid st.playlists = some p →
      (p.enabled = false → schedJobId pid ∉ st.triggers) ∧
      (p.enabled = true → st.triggers.count (schedJobId pid) = 1) := by
  obtain ⟨-, hnd, hiff⟩ := sreach_inv st h
  intro pid p hl
  constructor
  · intro hdis hmem
    obtain ⟨q, pq, hq, he, hj⟩ := (hiff _).mp hmem
    have hqe : q = pid := schedJobId_inj hj.symm
    subst hqe
    rw [hl] at hq
    injection hq with hq
    rw [← hq] at he
    rw [hdis] at he
    cases he
  · intro hen
    exact list_count_nodup hnd ((hiff _).mpr ⟨pid, p, hl, hen, rfl⟩)

theorem c8_trigger_invariant_witness :
    SReach c8St ∧
    (∀ pid p, dictLookup pid c8St.playlists = some p →
      (p.enabled = false → schedJobId pid ∉ c8St.triggers) ∧
      (p.enabled = true → c8St.triggers.count (schedJobId pid) = 1)) ∧
    dictLookup "p1" c8St.playlists = some (applyUpd { enabled := some true }
      (applyUpd { enabled := some false } (mkPlaylist "p1" c8D))) ∧
    c8St.triggers = [schedJobId "p1"] := by
  have hr : SReach c8St :=
    SReach.update _ "p1" { enabled := some true }
      (SReach.update _ "p1" { enabled := some false }
        (SReach.add _ "p1" c8D (SReach.start [] ⟨List.nodup_nil, by simp⟩) rfl))
  exact ⟨hr, c8_trigger_invariant c8St hr, by decide, by decide⟩
